import Mathlib

/-!
# The autoreplace dialog (`src/autoreplace_gui.cpp`)

A shallow embedding of the list building and selection logic of the
"replace vehicles" window: the compatibility predicates, the list builder
`GenerateReplaceVehList`, the lazy rebuild `GenerateLists` and the window
procedure `ReplaceVehicleWndProc`, followed by the properties of the
specification that are settled on them.

Machine integers are natural numbers (or integers where a signed value is
read) with the wrap-around written out where the code can reach it.  The game
data the file only reads (engine pool, player data, rail types) is the record
`Env`; it is an argument of every function that reads it, so that it may differ
from one event to the next.
-/

namespace Autoreplace

/-! ## Types and constants declared outside the file -/

/-- Modelled from the spec: the identity of an engine model (`EngineID`, a 16 bit
index into the engine pool, declared outside this file). -/
abbrev EngineID := Nat

/-- Modelled from the spec: a cargo type (`CargoID`, declared outside this file). -/
abbrev CargoID := Nat

/-- Modelled from the spec: a rail type (`RailType`, declared outside this file);
the rail type dropdown delivers it as the index of the chosen line. -/
abbrev RailType := Nat

/-- Modelled from the spec: the group whose vehicles the dialog filters on
(`GroupID`, declared outside this file). -/
abbrev GroupID := Nat

/-- Modelled from the spec: the NONE engine (`INVALID_ENGINE`, declared outside this
file), the largest value of the 16 bit engine index. -/
def INVALID_ENGINE : EngineID := 0xFFFF

/-- Modelled from the spec: the NONE cargo (`CT_INVALID`, declared outside this file). -/
def CT_INVALID : CargoID := 0xFF

/-- Modelled from the spec: the passenger cargo constant (`CT_PASSENGERS`, declared
outside this file). -/
def CT_PASSENGERS : CargoID := 0

/-- Modelled from the spec: the vehicle category of an engine (`VehicleType`,
declared outside this file).  Engines have one of these four categories, which
is why the `default: NOT_REACHED()` arm of `EngineCargo` has no counterpart. -/
inductive VehicleType where
  | VEH_TRAIN
  | VEH_ROAD
  | VEH_SHIP
  | VEH_AIRCRAFT
  deriving DecidableEq, Repr

open VehicleType

/-- Modelled from the spec: the wagon/locomotive flag of a rail engine
(`RailVehicleTypes`, declared outside this file). -/
inductive RailVehicleType where
  | RAILVEH_SINGLEHEAD
  | RAILVEH_MULTIHEAD
  | RAILVEH_WAGON
  deriving DecidableEq, Repr

open RailVehicleType

/-- Modelled from the spec: the rail part of an engine (`RailVehicleInfo`, declared
outside this file); only the fields the dialog reads. -/
structure RailVehicleInfo where
  railveh_type : RailVehicleType
  railtype : RailType
  capacity : Nat
  cargo_type : CargoID
  deriving DecidableEq, Repr

/-- Modelled from the spec: the road part of an engine (`RoadVehicleInfo`, declared
outside this file): its declared cargo and its capacity. -/
structure RoadVehicleInfo where
  capacity : Nat
  cargo_type : CargoID
  deriving DecidableEq, Repr

/-- Modelled from the spec: the ship part of an engine (`ShipVehicleInfo`, declared
outside this file): its declared cargo and its capacity. -/
structure ShipVehicleInfo where
  capacity : Nat
  cargo_type : CargoID
  deriving DecidableEq, Repr

/-- Modelled from the spec: the category independent part of an engine
(`EngineInfo`, declared outside this file): refit mask and flag bits. -/
structure EngineInfo where
  refit_mask : Nat
  misc_flags : Nat
  deriving DecidableEq, Repr

/-- Modelled from the spec: the bit of `misc_flags` that marks a road engine as a
tram (`EF_ROAD_TRAM`, declared outside this file). -/
def EF_ROAD_TRAM : Nat := 0

/-- The bit test `HasBit(x, y)`, that is `(x & (1 << y)) != 0`. -/
def HasBit (x y : Nat) : Bool := Nat.testBit x y

/-- Modelled from the spec: a scrollbar of the window (`Scrollbar`, declared outside
this file). -/
structure Scrollbar where
  count : Nat
  cap : Nat
  pos : Nat
  deriving DecidableEq, Repr

/-- The game data the file reads and the functions it calls without defining
them.  The local player is fixed, so the player arguments are left out;
`renew_keep_length` is that player's setting.
`engines` is the sequence of engine ids that `FOR_ALL_ENGINES` visits, in that
order (the catalog). -/
structure Env where
  engines : List EngineID
  GetEngine_type : EngineID → VehicleType
  RailVehInfo : EngineID → RailVehicleInfo
  RoadVehInfo : EngineID → RoadVehicleInfo
  ShipVehInfo : EngineID → ShipVehicleInfo
  EngInfo : EngineID → EngineInfo
  CanRefitTo : EngineID → CargoID → Bool
  IsCompatibleRail : RailType → RailType → Bool
  IsEngineBuildable : EngineID → VehicleType → Bool
  GetGroupNumEngines : GroupID → EngineID → Nat
  EngineReplacementForPlayer : EngineID → GroupID → EngineID
  EngineHasReplacementForPlayer : EngineID → GroupID → Bool
  ListPositionOfEngine : EngineID → Nat
  renew_keep_length : Bool
  SetVScrollCount : Scrollbar → Nat → Scrollbar

/-- The list of engines of one side (`EngineList`, a vector of engine ids). -/
abbrev EngineList := List EngineID

/-! ## Compatibility predicates -/

/-- The default cargo type of an engine (`EngineCargo`). -/
def EngineCargo (env : Env) (engine : EngineID) : CargoID :=
  if engine = INVALID_ENGINE then CT_INVALID
  else
    match env.GetEngine_type engine with
    | VEH_TRAIN =>
      if (env.RailVehInfo engine).capacity = 0 then CT_INVALID
      else (env.RailVehInfo engine).cargo_type
    | VEH_ROAD => (env.RoadVehInfo engine).cargo_type
    | VEH_SHIP => (env.ShipVehInfo engine).cargo_type
    | VEH_AIRCRAFT => CT_PASSENGERS

/-- Whether a rail engine belongs in a list (`GenerateReplaceRailList`);
`railtype_selected` is the file static `_railtype_selected_in_replace_gui`. -/
def GenerateReplaceRailList (env : Env) (railtype_selected : RailType)
    (e : EngineID) (draw_left show_engines : Bool) : Bool :=
  let rvi := env.RailVehInfo e
  if (decide (rvi.railveh_type = RAILVEH_WAGON)) = show_engines then false
  else if draw_left && show_engines then
    if rvi.railtype ≠ railtype_selected then false else true
  else
    if !env.IsCompatibleRail rvi.railtype railtype_selected then false else true

/-- Whether two engines have a cargo in common, refitting if needed
(`EnginesGotCargoInCommon`). -/
def EnginesGotCargoInCommon (env : Env) (engine_a engine_b : EngineID) : Bool :=
  let a := EngineCargo env engine_a
  let b := EngineCargo env engine_b
  if a = CT_INVALID ∨ b = CT_INVALID ∨ a = b then true
  else if (env.EngInfo engine_a).refit_mask &&& (env.EngInfo engine_b).refit_mask ≠ 0 then true
  else if env.CanRefitTo engine_a b || env.CanRefitTo engine_b a then true
  else false

/-! ## The window -/

/-- The state the window procedure works on: the fields of `Window` it uses,
the custom data `replaceveh_d` of the window (`WP(w, replaceveh_d)`), and the
file static `_railtype_selected_in_replace_gui`.  The two element arrays
`sel_engine` and `list` are pairs (index 0 first).  `disabled_START_REPLACE` and
`disabled_STOP_REPLACE` are the disabled states of the two buttons,
`commands` the `(p1, p2)` arguments of the `CMD_SET_AUTOREPLACE` commands sent
so far, oldest first. -/
structure Window where
  window_number : VehicleType
  vscroll : Scrollbar
  vscroll2 : Scrollbar
  resize_step_height : Nat
  disabled_START_REPLACE : Bool
  disabled_STOP_REPLACE : Bool
  sel_engine : EngineID × EngineID
  wagon_btnstate : Bool
  list : EngineList × EngineList
  update_left : Bool
  update_right : Bool
  init_lists : Bool
  sel_group : GroupID
  railtype_selected_in_replace_gui : RailType
  commands : List (Nat × Nat)
  deriving DecidableEq, Repr

/-- The value an `int` holds when a 32 bit result is stored in it: the
result modulo 2^32, read in two's complement. -/
def to_int32 (n : Int) : Int :=
  if n % 2 ^ 32 < 2 ^ 31 then n % 2 ^ 32 else n % 2 ^ 32 - 2 ^ 32

/-- The comparison `TrainEngineNumberSorter`: the difference of the list
positions of two engines, stored in the `int r`, where it wraps. -/
def TrainEngineNumberSorter (env : Env) (va vb : EngineID) : Int :=
  to_int32 ((env.ListPositionOfEngine va : Int) - (env.ListPositionOfEngine vb : Int))

/-- Modelled from the spec: `EngList_Sort` (defined outside this file), the stable
sort of an engine list by a comparison function: an engine goes before those
the comparison does not put it after. -/
def EngList_Sort (cmp : EngineID → EngineID → Int) (l : EngineList) : EngineList :=
  List.insertionSort (fun a b => cmp a b ≤ 0) l

/-- Modelled from the spec: `FOR_ALL_ENGINES_OF_TYPE` (a macro defined outside this
file): the engines of the catalog of one vehicle category, in catalog order. -/
def FOR_ALL_ENGINES_OF_TYPE (env : Env) (type : VehicleType) : List EngineID :=
  env.engines.filter (fun eid => decide (env.GetEngine_type eid = type))

/-- One turn of the loop of `GenerateReplaceVehList` for the engine `eid`:
`acc` is the list built so far and the local `selected_engine`; a `continue`
leaves both as they are. -/
def GenerateReplaceVehList_loop (env : Env) (w : Window) (draw_left : Bool)
    (acc : EngineList × EngineID) (eid : EngineID) : EngineList × EngineID :=
  let type := w.window_number
  let i_sel := if draw_left then w.sel_engine.1 else w.sel_engine.2
  let pushed : EngineList × EngineID := (acc.1 ++ [eid], if eid = i_sel then eid else acc.2)
  if type = VEH_TRAIN ∧
      GenerateReplaceRailList env w.railtype_selected_in_replace_gui eid draw_left
        w.wagon_btnstate = false then acc
  else if draw_left then
    let num_engines := env.GetGroupNumEngines w.sel_group eid
    if num_engines = 0 ∧ env.EngineReplacementForPlayer eid w.sel_group = INVALID_ENGINE then acc
    else pushed
  else
    if env.IsEngineBuildable eid type = false then acc
    else if EnginesGotCargoInCommon env eid w.sel_engine.1 = false then acc
    else if type = VEH_ROAD
        ∧ HasBit (env.EngInfo w.sel_engine.1).misc_flags EF_ROAD_TRAM
          ≠ HasBit (env.EngInfo eid).misc_flags EF_ROAD_TRAM then acc
    else if eid = w.sel_engine.1 then acc
    else pushed

/-- Generate the list of one side (`GenerateReplaceVehList`): clear it, run the
loop over the engines of the window's category, store the selection that
survived, and sort the list for trains. -/
def GenerateReplaceVehList (env : Env) (w : Window) (draw_left : Bool) : Window :=
  let type := w.window_number
  let r := (FOR_ALL_ENGINES_OF_TYPE env type).foldl
    (GenerateReplaceVehList_loop env w draw_left) ([], INVALID_ENGINE)
  let list := if type = VEH_TRAIN then EngList_Sort (TrainEngineNumberSorter env) r.1 else r.1
  if draw_left then
    { w with list := (list, w.list.2), sel_engine := (r.2, w.sel_engine.2) }
  else
    { w with list := (w.list.1, list), sel_engine := (w.sel_engine.1, r.2) }

/-- The first block of `GenerateLists`: when `update_left` is set, rebuild the
left list, tell the scrollbar its length and, with `init_lists` set and nothing
selected, select the first engine of a list that is not empty. -/
def GenerateLists_left (env : Env) (w : Window) : Window :=
  if w.update_left = true then
    let wa := GenerateReplaceVehList env w true
    let wb : Window := { wa with vscroll := env.SetVScrollCount wa.vscroll wa.list.1.length }
    if wb.init_lists ∧ wb.sel_engine.1 = INVALID_ENGINE ∧ wb.list.1.length ≠ 0 then
      { wb with sel_engine := (wb.list.1.getD 0 INVALID_ENGINE, wb.sel_engine.2) }
    else wb
  else w

/-- The second block of `GenerateLists`, `e` being the left selection at
entry: when `update_right` is set or the left selection is no longer `e`, empty
the right side if nothing is selected on the left, and else rebuild the right
list, tell the second scrollbar its length and, with `init_lists` set and
nothing selected, select the first engine of a list that is not empty. -/
def GenerateLists_right (env : Env) (e : EngineID) (w : Window) : Window :=
  if w.update_right ∨ e ≠ w.sel_engine.1 then
    if w.sel_engine.1 = INVALID_ENGINE then
      { w with list := (w.list.1, []), sel_engine := (w.sel_engine.1, INVALID_ENGINE) }
    else
      let wa := GenerateReplaceVehList env w false
      let wb : Window := { wa with vscroll2 := env.SetVScrollCount wa.vscroll2 wa.list.2.length }
      if wb.init_lists ∧ wb.sel_engine.2 = INVALID_ENGINE ∧ wb.list.2.length ≠ 0 then
        { wb with sel_engine := (wb.sel_engine.1, wb.list.2.getD 0 INVALID_ENGINE) }
      else wb
  else w

/-- Generate the lists (`GenerateLists`): remember the left selection, run the
block of the left list and the block of the right list, and reset the three
flags. -/
def GenerateLists (env : Env) (w : Window) : Window :=
  let e := w.sel_engine.1
  let w1 := GenerateLists_left env w
  let w2 := GenerateLists_right env e w1
  { w2 with update_left := false, update_right := false, init_lists := false }

/-! ## The window procedure -/

/-- The widgets of the window (`ReplaceVehicleWindowWidgets`), by number. -/
def RVW_WIDGET_LEFT_MATRIX : Nat := 3
/-- The right list. -/
def RVW_WIDGET_RIGHT_MATRIX : Nat := 5
/-- The Start Replacing button. -/
def RVW_WIDGET_START_REPLACE : Nat := 9
/-- The Stop Replacing button. -/
def RVW_WIDGET_STOP_REPLACE : Nat := 11
/-- The engine/wagon toggle of the train window. -/
def RVW_WIDGET_TRAIN_ENGINEWAGON_TOGGLE : Nat := 13
/-- The rail type dropdown of the train window. -/
def RVW_WIDGET_TRAIN_RAILTYPE_DROPDOWN : Nat := 15
/-- The wagon removal toggle of the train window. -/
def RVW_WIDGET_TRAIN_WAGONREMOVE_TOGGLE : Nat := 17

/-- The events the window procedure reacts to, with the part of their payload
it reads: the widget and the y coordinate of a click, the index chosen in a
dropdown, the size change of a resize, the data of an invalidation. -/
inductive WindowEvent where
  | WE_CREATE
  | WE_PAINT
  | WE_CLICK (widget : Nat) (pt_y : Int)
  | WE_DROPDOWN_SELECT (index : Nat)
  | WE_RESIZE (diff_x diff_y : Int)
  | WE_INVALIDATE_DATA (data : Int)
  | WE_DESTROY
  deriving DecidableEq, Repr

open WindowEvent

/-- The two `p` arguments of the command `DoCommandP(0, p1, p2, NULL,
CMD_SET_AUTOREPLACE)`, as 32 bit values. -/
def DoCommandP (w : Window) (p1 p2 : Nat) : Window :=
  { w with commands := w.commands ++ [(p1 % 2 ^ 32, p2 % 2 ^ 32)] }

/-- The click on one of the two list matrices (the `RVW_WIDGET_LEFT_MATRIX` and
`RVW_WIDGET_RIGHT_MATRIX` case of `WE_CLICK`); `left` says which one. -/
def ClickMatrix (w : Window) (left : Bool) (pt_y : Int) : Window :=
  let i : Nat := ((pt_y - 14) % 2 ^ 32).toNat / w.resize_step_height
  let click_scroll_pos := if left then w.vscroll.pos else w.vscroll2.pos
  let click_scroll_cap := if left then w.vscroll.cap else w.vscroll2.cap
  let engine_count := if left then w.list.1.length else w.list.2.length
  if i < click_scroll_cap then
    let i := (i + click_scroll_pos) % 2 ^ 32
    let e : EngineID :=
      if engine_count > i then (if left then w.list.1 else w.list.2).getD i INVALID_ENGINE
      else INVALID_ENGINE
    if e = (if left then w.sel_engine.1 else w.sel_engine.2) then w
    else if left then
      { w with sel_engine := (e, w.sel_engine.2), update_right := true, init_lists := true }
    else
      { w with sel_engine := (w.sel_engine.1, e) }
  else w

/-- The window procedure `ReplaceVehicleWndProc`.  Drawing, the layout of the
widgets and the opening of the dropdown menu leave the state of the model as it
is; `WE_DESTROY` ends the life of the window and of its lists. -/
def ReplaceVehicleWndProc (env : Env) (w : Window) (e : WindowEvent) : Window :=
  match e with
  | WE_CREATE =>
    { w with
      wagon_btnstate := true,
      list := ([], []),
      update_left := true,
      update_right := true,
      init_lists := true,
      sel_engine := (INVALID_ENGINE, INVALID_ENGINE) }
  | WE_PAINT =>
    let w1 : Window := if w.update_left ∨ w.update_right then GenerateLists env w else w
    let selected_group := w1.sel_group
    let selected_id : EngineID × EngineID := (w1.sel_engine.1, w1.sel_engine.2)
    let start_disabled : Bool :=
      decide (selected_id.1 = INVALID_ENGINE ∨
        selected_id.2 = INVALID_ENGINE ∨
        env.EngineReplacementForPlayer selected_id.2 selected_group ≠ INVALID_ENGINE ∨
        env.EngineReplacementForPlayer selected_id.1 selected_group = selected_id.2)
    let stop_disabled : Bool :=
      decide (selected_id.1 = INVALID_ENGINE ∨
        env.EngineHasReplacementForPlayer selected_id.1 selected_group = false)
    { w1 with disabled_START_REPLACE := start_disabled, disabled_STOP_REPLACE := stop_disabled }
  | WE_CLICK widget pt_y =>
    if widget = RVW_WIDGET_TRAIN_ENGINEWAGON_TOGGLE then
      { w with wagon_btnstate := !w.wagon_btnstate, update_left := true, init_lists := true }
    else if widget = RVW_WIDGET_TRAIN_RAILTYPE_DROPDOWN then w
    else if widget = RVW_WIDGET_TRAIN_WAGONREMOVE_TOGGLE then
      DoCommandP w 5 (if env.renew_keep_length then 0 else 1)
    else if widget = RVW_WIDGET_START_REPLACE then
      let veh_from := w.sel_engine.1
      let veh_to := w.sel_engine.2
      DoCommandP w (3 + (w.sel_group <<< 16)) (veh_from + (veh_to <<< 16))
    else if widget = RVW_WIDGET_STOP_REPLACE then
      let veh_from := w.sel_engine.1
      DoCommandP w (3 + (w.sel_group <<< 16)) (veh_from + (INVALID_ENGINE <<< 16))
    else if widget = RVW_WIDGET_LEFT_MATRIX ∨ widget = RVW_WIDGET_RIGHT_MATRIX then
      ClickMatrix w (decide (widget = RVW_WIDGET_LEFT_MATRIX)) pt_y
    else w
  | WE_DROPDOWN_SELECT index =>
    let temp : RailType := index
    if temp = w.railtype_selected_in_replace_gui then w
    else
      { w with
        railtype_selected_in_replace_gui := temp,
        vscroll := { w.vscroll with pos := 0 },
        vscroll2 := { w.vscroll2 with pos := 0 },
        update_left := true,
        update_right := true,
        init_lists := true }
  | WE_RESIZE _ diff_y =>
    let d : Int := Int.tdiv diff_y (w.resize_step_height : Int)
    { w with
      vscroll := { w.vscroll with cap := (((w.vscroll.cap : Int) + d) % 2 ^ 16).toNat },
      vscroll2 := { w.vscroll2 with cap := (((w.vscroll2.cap : Int) + d) % 2 ^ 16).toNat } }
  | WE_INVALIDATE_DATA data =>
    if data = 1 then { w with update_left := true }
    else { w with update_right := true }
  | WE_DESTROY => w

/-- What happens to the window between creation and disposal: an event
delivered to the window procedure, with the game data as it is at that moment,
or the windowing framework moving the two scrollbars (scrolling, which it does
without the window procedure). -/
inductive Input where
  | event (env : Env) (e : WindowEvent)
  | scroll (vscroll vscroll2 : Scrollbar)

/-- One input applied to the window. -/
def step (w : Window) : Input → Window
  | Input.event env e => ReplaceVehicleWndProc env w e
  | Input.scroll v v2 => { w with vscroll := v, vscroll2 := v2 }

/-- A sequence of inputs applied to the window, first to last. -/
def run (w : Window) (ins : List Input) : Window :=
  ins.foldl step w

/-- The states of the dialog: those reached from the creation of the window
(`WE_CREATE` on the freshly allocated window `w0`) by a sequence of inputs. -/
def reached (env0 : Env) (w0 : Window) (ins : List Input) : Window :=
  run (ReplaceVehicleWndProc env0 w0 WE_CREATE) ins

/-! ## The side predicate in the words of the specification -/

/-- The membership predicate of one side as the specification words it (4.2,
steps 2 to 4): for rail the rail predicate of the side; on the source side an
owned count that is not zero or a replacement rule; on the target side
buildable, cargo compatible with the source selection, for road vehicles the
tram flag of the source selection, and not the source selection itself. -/
def SidePredicate (env : Env) (w : Window) (draw_left : Bool) (eid : EngineID) : Prop :=
  (w.window_number = VEH_TRAIN →
    GenerateReplaceRailList env w.railtype_selected_in_replace_gui eid draw_left
      w.wagon_btnstate = true) ∧
  (draw_left = true →
    env.GetGroupNumEngines w.sel_group eid ≠ 0 ∨
    env.EngineReplacementForPlayer eid w.sel_group ≠ INVALID_ENGINE) ∧
  (draw_left = false →
    env.IsEngineBuildable eid w.window_number = true ∧
    EnginesGotCargoInCommon env eid w.sel_engine.1 = true ∧
    (w.window_number = VEH_ROAD →
      HasBit (env.EngInfo eid).misc_flags EF_ROAD_TRAM
        = HasBit (env.EngInfo w.sel_engine.1).misc_flags EF_ROAD_TRAM) ∧
    eid ≠ w.sel_engine.1)

instance (env : Env) (w : Window) (draw_left : Bool) (eid : EngineID) :
    Decidable (SidePredicate env w draw_left eid) := by
  unfold SidePredicate; infer_instance

/-! ## Invariants of the dialog -/

/-- Invariant C, for the states in which no rebuild of the right list is
pending. -/
def InvC (w : Window) : Prop :=
  w.update_right = false → w.sel_engine.1 = INVALID_ENGINE →
    w.list.2 = [] ∧ w.sel_engine.2 = INVALID_ENGINE

/-- Invariant A: each selection is NONE or an element of its list. -/
def InvA (w : Window) : Prop :=
  (w.sel_engine.1 = INVALID_ENGINE ∨ w.sel_engine.1 ∈ w.list.1) ∧
  (w.sel_engine.2 = INVALID_ENGINE ∨ w.sel_engine.2 ∈ w.list.2)

/-- No self-replacement, for the states in which no rebuild of the right list
is pending: the target list does not hold the source selection. -/
def InvNoSelf (w : Window) : Prop :=
  w.update_right = false → w.sel_engine.1 ∉ w.list.2

/-- Modelled from the spec: `SetVScrollCount` (defined outside this file) as the
windowing framework has it: store the number of rows and pull the position
back so that the last page stays filled. -/
def SetVScrollCount_model (sb : Scrollbar) (num : Nat) : Scrollbar :=
  { sb with count := num, pos := if num - sb.cap < sb.pos then num - sb.cap else sb.pos }

/-- Game data with an empty catalog: nothing owned, nothing buildable, no
replacement rule; rail and electrified rail are compatible with each other,
every other rail type only with itself. -/
def env_none : Env where
  engines := []
  GetEngine_type := fun _ => VEH_ROAD
  RailVehInfo := fun _ => ⟨RAILVEH_WAGON, 0, 0, 0⟩
  RoadVehInfo := fun _ => ⟨0, 0⟩
  ShipVehInfo := fun _ => ⟨0, 0⟩
  EngInfo := fun _ => ⟨0, 0⟩
  CanRefitTo := fun _ _ => false
  IsCompatibleRail := fun a b => decide (a = b) || decide (a ≤ 1 ∧ b ≤ 1)
  IsEngineBuildable := fun _ _ => false
  GetGroupNumEngines := fun _ _ => 0
  EngineReplacementForPlayer := fun _ _ => INVALID_ENGINE
  EngineHasReplacementForPlayer := fun _ _ => false
  ListPositionOfEngine := fun e => e
  renew_keep_length := false
  SetVScrollCount := SetVScrollCount_model

/-- Two buses, engines 1 and 2, both carrying passengers and both buildable; the
player owns two vehicles of engine 1 and none of engine 2. -/
def env_road : Env :=
  { env_none with
    engines := [1, 2],
    RoadVehInfo := fun _ => ⟨31, 0⟩,
    IsEngineBuildable := fun _ _ => true,
    GetGroupNumEngines := fun _ e => if e = 1 then 2 else 0 }

/-- A freshly allocated road vehicle window as `ShowReplaceGroupVehicleWindow`
sets it up: rows of height 14, eight of them visible, group 0. -/
def w_road : Window where
  window_number := VEH_ROAD
  vscroll := ⟨0, 8, 0⟩
  vscroll2 := ⟨0, 8, 0⟩
  resize_step_height := 14
  disabled_START_REPLACE := false
  disabled_STOP_REPLACE := false
  sel_engine := (0, 0)
  wagon_btnstate := false
  list := ([], [])
  update_left := false
  update_right := false
  init_lists := false
  sel_group := 0
  railtype_selected_in_replace_gui := 0
  commands := []

/-- Three buses, engines 1, 2 and 3, all carrying passengers and all buildable;
the player owns vehicles of engines 1 and 2. -/
def env_road3 : Env :=
  { env_none with
    engines := [1, 2, 3],
    RoadVehInfo := fun _ => ⟨31, 0⟩,
    IsEngineBuildable := fun _ _ => true,
    GetGroupNumEngines := fun _ e => if e = 1 ∨ e = 2 then 4 else 0 }

/-- A rail catalog with one wagon, engine 7, built for maglev (rail type 3). -/
def env_maglev_wagon : Env :=
  { env_none with
    engines := [7],
    GetEngine_type := fun _ => VEH_TRAIN,
    RailVehInfo := fun _ => ⟨RAILVEH_WAGON, 3, 30, 1⟩ }

/-- Two locomotives with capacity on plain rail, both buildable: engine 1
carries passengers (cargo 0) and is owned, engine 2 carries mail (cargo 2);
their refit masks are disjoint and neither can be refitted. -/
def env_mail : Env :=
  { env_none with
    engines := [1, 2],
    GetEngine_type := fun _ => VEH_TRAIN,
    RailVehInfo := fun e => if e = 1 then ⟨RAILVEH_SINGLEHEAD, 0, 40, 0⟩
      else ⟨RAILVEH_SINGLEHEAD, 0, 40, 2⟩,
    EngInfo := fun e => if e = 1 then ⟨1, 0⟩ else ⟨4, 0⟩,
    IsEngineBuildable := fun _ _ => true,
    GetGroupNumEngines := fun _ e => if e = 1 then 1 else 0 }

/-- A freshly allocated train window as `ShowReplaceGroupVehicleWindow` sets it
up. -/
def w_train : Window := { w_road with window_number := VEH_TRAIN }

/-- A road catalog with one engine, engine 1, declared for goods (cargo 5)
with a capacity of zero. -/
def env_no_capacity : Env :=
  { env_none with
    engines := [1],
    RoadVehInfo := fun _ => ⟨0, 5⟩ }

/-- Engines 1 and 2 of `env_road` with a replacement rule from 1 to 2. -/
def env_rule : Env :=
  { env_road with
    EngineReplacementForPlayer := fun e _ => if e = 1 then 2 else INVALID_ENGINE,
    EngineHasReplacementForPlayer := fun e _ => decide (e = 1) }

/-- The rail catalog of Scenario 1 of the specification: locomotives 1 and 3 on
plain rail, locomotive 2 on electrified rail, wagons 4 and 5; the player owns
vehicles of all five; engine 3 comes before engine 1 in the list position. -/
def env_scenario1 : Env :=
  { env_none with
    engines := [1, 2, 3, 4, 5],
    GetEngine_type := fun _ => VEH_TRAIN,
    RailVehInfo := fun e =>
      if e = 1 ∨ e = 3 then ⟨RAILVEH_SINGLEHEAD, 0, 0, 0⟩
      else if e = 2 then ⟨RAILVEH_SINGLEHEAD, 1, 0, 0⟩
      else ⟨RAILVEH_WAGON, 0, 30, 0⟩,
    GetGroupNumEngines := fun _ _ => 1,
    ListPositionOfEngine := fun e => if e = 3 then 10 else 20 + e }

/-- The rail catalog of `env_scenario1` with every engine buildable. -/
def env_toggle : Env :=
  { env_scenario1 with IsEngineBuildable := fun _ _ => true }

/-- A rail catalog of two owned plain rail locomotives, engines 1 and 2, whose
list positions 0 and 0x90000000 lie more than 2^31 apart. -/
def env_wrap : Env :=
  { env_none with
    engines := [1, 2],
    GetEngine_type := fun _ => VEH_TRAIN,
    RailVehInfo := fun _ => ⟨RAILVEH_SINGLEHEAD, 0, 0, 0⟩,
    GetGroupNumEngines := fun _ _ => 1,
    ListPositionOfEngine := fun e => if e = 1 then 0 else 0x90000000 }

/-! ## Lemmas on the list builder -/

theorem loop_eq (env : Env) (w : Window) (draw_left : Bool)
    (acc : EngineList × EngineID) (eid : EngineID) :
    GenerateReplaceVehList_loop env w draw_left acc eid =
      if SidePredicate env w draw_left eid then
        (acc.1 ++ [eid],
          if eid = (if draw_left then w.sel_engine.1 else w.sel_engine.2) then eid else acc.2)
      else acc := by
  unfold GenerateReplaceVehList_loop SidePredicate
  cases draw_left <;> simp <;> split_ifs <;> simp_all

theorem fold_fst (env : Env) (w : Window) (draw_left : Bool) (es : List EngineID) :
    ∀ acc : EngineList × EngineID,
      (es.foldl (GenerateReplaceVehList_loop env w draw_left) acc).1 =
        acc.1 ++ es.filter (fun eid => decide (SidePredicate env w draw_left eid)) := by
  induction es with
  | nil => intro acc; simp
  | cons x xs ih =>
    intro acc
    rw [List.foldl_cons, ih, loop_eq]
    by_cases h : SidePredicate env w draw_left x <;> simp [h, List.filter_cons]

theorem fold_snd (env : Env) (w : Window) (draw_left : Bool) (es : List EngineID) :
    ∀ acc : EngineList × EngineID,
      (es.foldl (GenerateReplaceVehList_loop env w draw_left) acc).2 =
        if (if draw_left then w.sel_engine.1 else w.sel_engine.2) ∈
            es.filter (fun eid => decide (SidePredicate env w draw_left eid))
        then (if draw_left then w.sel_engine.1 else w.sel_engine.2) else acc.2 := by
  induction es with
  | nil => intro acc; simp
  | cons x xs ih =>
    intro acc
    rw [List.foldl_cons, ih, loop_eq]
    generalize (if draw_left = true then w.sel_engine.1 else w.sel_engine.2) = s
    by_cases h : SidePredicate env w draw_left x
    · by_cases hx : x = s
      · subst hx
        simp [h, List.filter_cons]
      · have hx2 : ¬ s = x := fun hc => hx hc.symm
        simp [h, List.filter_cons, hx, hx2]
    · simp [h, List.filter_cons]

theorem mem_EngList_Sort (cmp : EngineID → EngineID → Int) (l : EngineList) (e : EngineID) :
    e ∈ EngList_Sort cmp l ↔ e ∈ l := by
  unfold EngList_Sort
  exact (List.perm_insertionSort _ l).mem_iff

theorem left_list_mem (env : Env) (w : Window) (e : EngineID) :
    e ∈ (GenerateReplaceVehList env w true).list.1 ↔
      e ∈ env.engines ∧ env.GetEngine_type e = w.window_number ∧ SidePredicate env w true e := by
  unfold GenerateReplaceVehList
  simp only [if_true, fold_fst, FOR_ALL_ENGINES_OF_TYPE]
  split_ifs <;> simp [mem_EngList_Sort, List.mem_filter] <;> tauto

theorem right_list_mem (env : Env) (w : Window) (e : EngineID) :
    e ∈ (GenerateReplaceVehList env w false).list.2 ↔
      e ∈ env.engines ∧ env.GetEngine_type e = w.window_number ∧ SidePredicate env w false e := by
  unfold GenerateReplaceVehList
  simp only [Bool.false_eq_true, if_false, fold_fst, FOR_ALL_ENGINES_OF_TYPE]
  split_ifs <;> simp [mem_EngList_Sort, List.mem_filter] <;> tauto

theorem left_sel (env : Env) (w : Window) :
    (GenerateReplaceVehList env w true).sel_engine.1 =
      if w.sel_engine.1 ∈ (GenerateReplaceVehList env w true).list.1
      then w.sel_engine.1 else INVALID_ENGINE := by
  unfold GenerateReplaceVehList
  simp only [if_true, fold_fst, fold_snd, FOR_ALL_ENGINES_OF_TYPE]
  split_ifs <;> simp_all [mem_EngList_Sort]

theorem right_sel (env : Env) (w : Window) :
    (GenerateReplaceVehList env w false).sel_engine.2 =
      if w.sel_engine.2 ∈ (GenerateReplaceVehList env w false).list.2
      then w.sel_engine.2 else INVALID_ENGINE := by
  unfold GenerateReplaceVehList
  simp only [Bool.false_eq_true, if_false, fold_fst, fold_snd, FOR_ALL_ENGINES_OF_TYPE]
  split_ifs <;> simp_all [mem_EngList_Sort]

/-! ### What `GenerateReplaceVehList` leaves alone -/

theorem left_frame (env : Env) (w : Window) :
    GenerateReplaceVehList env w true =
      { w with
        list := ((GenerateReplaceVehList env w true).list.1, w.list.2),
        sel_engine := ((GenerateReplaceVehList env w true).sel_engine.1, w.sel_engine.2) } := by
  simp [GenerateReplaceVehList]

theorem right_frame (env : Env) (w : Window) :
    GenerateReplaceVehList env w false =
      { w with
        list := (w.list.1, (GenerateReplaceVehList env w false).list.2),
        sel_engine := (w.sel_engine.1, (GenerateReplaceVehList env w false).sel_engine.2) } := by
  simp [GenerateReplaceVehList]

/-- The right list depends on the window only through its category, the
engine/wagon mode, the rail type and the source selection. -/
theorem right_list_congr (env : Env) (w v : Window)
    (h1 : v.window_number = w.window_number) (h2 : v.wagon_btnstate = w.wagon_btnstate)
    (h3 : v.railtype_selected_in_replace_gui = w.railtype_selected_in_replace_gui)
    (h4 : v.sel_engine.1 = w.sel_engine.1) :
    (GenerateReplaceVehList env v false).list.2 = (GenerateReplaceVehList env w false).list.2 := by
  have hp : ∀ eid, SidePredicate env v false eid ↔ SidePredicate env w false eid := by
    intro eid; simp [SidePredicate, h1, h2, h3, h4]
  unfold GenerateReplaceVehList
  simp only [Bool.false_eq_true, if_false, fold_fst, hp, h1]

/-- The left list depends on the window only through its category, the
engine/wagon mode, the rail type and the group. -/
theorem left_list_congr (env : Env) (w v : Window)
    (h1 : v.window_number = w.window_number) (h2 : v.wagon_btnstate = w.wagon_btnstate)
    (h3 : v.railtype_selected_in_replace_gui = w.railtype_selected_in_replace_gui)
    (h4 : v.sel_group = w.sel_group) :
    (GenerateReplaceVehList env v true).list.1 = (GenerateReplaceVehList env w true).list.1 := by
  have hp : ∀ eid, SidePredicate env v true eid ↔ SidePredicate env w true eid := by
    intro eid; simp [SidePredicate, h1, h2, h3, h4]
  unfold GenerateReplaceVehList
  simp only [if_true, fold_fst, hp, h1]

theorem getD_zero_mem (l : EngineList) (h : l.length ≠ 0) : l.getD 0 INVALID_ENGINE ∈ l := by
  cases l with
  | nil => simp at h
  | cons x xs => simp


/-! ### The blocks of `GenerateLists` in closed form -/

theorem GenerateLists_left_eq (env : Env) (w : Window) :
    GenerateLists_left env w =
      if w.update_left = true then
        { w with
          list := ((GenerateReplaceVehList env w true).list.1, w.list.2),
          vscroll := env.SetVScrollCount w.vscroll (GenerateReplaceVehList env w true).list.1.length,
          sel_engine :=
            (if w.init_lists = true ∧ (GenerateReplaceVehList env w true).sel_engine.1 = INVALID_ENGINE
                ∧ (GenerateReplaceVehList env w true).list.1 ≠ []
              then (GenerateReplaceVehList env w true).list.1.getD 0 INVALID_ENGINE
              else (GenerateReplaceVehList env w true).sel_engine.1,
             w.sel_engine.2) }
      else w := by
  unfold GenerateLists_left
  by_cases h : w.update_left = true
  · simp only [h, if_true]
    rw [left_frame env w]
    split_ifs <;> simp_all
  · simp [h]

theorem GenerateLists_right_eq (env : Env) (e : EngineID) (w : Window) :
    GenerateLists_right env e w =
      if w.update_right = true ∨ e ≠ w.sel_engine.1 then
        if w.sel_engine.1 = INVALID_ENGINE then
          { w with list := (w.list.1, []), sel_engine := (w.sel_engine.1, INVALID_ENGINE) }
        else
          { w with
            list := (w.list.1, (GenerateReplaceVehList env w false).list.2),
            vscroll2 :=
              env.SetVScrollCount w.vscroll2 (GenerateReplaceVehList env w false).list.2.length,
            sel_engine :=
              (w.sel_engine.1,
               if w.init_lists = true ∧ (GenerateReplaceVehList env w false).sel_engine.2 = INVALID_ENGINE
                  ∧ (GenerateReplaceVehList env w false).list.2 ≠ []
                then (GenerateReplaceVehList env w false).list.2.getD 0 INVALID_ENGINE
                else (GenerateReplaceVehList env w false).sel_engine.2) }
      else w := by
  unfold GenerateLists_right
  by_cases h : w.update_right = true ∨ e ≠ w.sel_engine.1
  · simp only [h, if_true]
    by_cases h0 : w.sel_engine.1 = INVALID_ENGINE
    · simp only [h0, if_true]
    · simp only [h0, if_false]
      rw [right_frame env w]
      split_ifs <;> simp_all
  · simp only [h, if_false]

/-! ### The two blocks of `GenerateLists` -/
theorem left_block_frame (env : Env) (w : Window) :
    (GenerateLists_left env w).list.2 = w.list.2 ∧
    (GenerateLists_left env w).sel_engine.2 = w.sel_engine.2 ∧
    (GenerateLists_left env w).update_right = w.update_right ∧
    (GenerateLists_left env w).init_lists = w.init_lists ∧
    (GenerateLists_left env w).window_number = w.window_number ∧
    (GenerateLists_left env w).wagon_btnstate = w.wagon_btnstate ∧
    (GenerateLists_left env w).sel_group = w.sel_group ∧
    (GenerateLists_left env w).railtype_selected_in_replace_gui
      = w.railtype_selected_in_replace_gui := by
  rw [GenerateLists_left_eq]
  split_ifs <;> simp

theorem right_block_frame (env : Env) (e : EngineID) (w : Window) :
    (GenerateLists_right env e w).list.1 = w.list.1 ∧
    (GenerateLists_right env e w).sel_engine.1 = w.sel_engine.1 ∧
    (GenerateLists_right env e w).window_number = w.window_number ∧
    (GenerateLists_right env e w).wagon_btnstate = w.wagon_btnstate ∧
    (GenerateLists_right env e w).sel_group = w.sel_group ∧
    (GenerateLists_right env e w).railtype_selected_in_replace_gui
      = w.railtype_selected_in_replace_gui := by
  rw [GenerateLists_right_eq]
  split_ifs <;> simp

theorem left_block_InvA (env : Env) (w : Window)
    (h : w.sel_engine.1 = INVALID_ENGINE ∨ w.sel_engine.1 ∈ w.list.1) :
    (GenerateLists_left env w).sel_engine.1 = INVALID_ENGINE ∨
      (GenerateLists_left env w).sel_engine.1 ∈ (GenerateLists_left env w).list.1 := by
  rw [GenerateLists_left_eq]
  have hs := left_sel env w
  split_ifs with hu hi
  · right
    simp only
    exact getD_zero_mem _ (by simpa using hi.2.2)
  · simp only
    rw [hs]
    split_ifs with hm
    · exact Or.inr hm
    · exact Or.inl rfl
  · exact h

theorem right_block_InvA (env : Env) (e : EngineID) (w : Window)
    (h : w.sel_engine.2 = INVALID_ENGINE ∨ w.sel_engine.2 ∈ w.list.2) :
    (GenerateLists_right env e w).sel_engine.2 = INVALID_ENGINE ∨
      (GenerateLists_right env e w).sel_engine.2 ∈ (GenerateLists_right env e w).list.2 := by
  rw [GenerateLists_right_eq]
  have hs := right_sel env w
  split_ifs with hu h0 hi
  · exact Or.inl rfl
  · right
    simp only
    exact getD_zero_mem _ (by simpa using hi.2.2)
  · simp only
    rw [hs]
    split_ifs with hm
    · exact Or.inr hm
    · exact Or.inl rfl
  · exact h

theorem GenerateLists_InvA (env : Env) (w : Window) (h : InvA w) :
    InvA (GenerateLists env w) := by
  unfold InvA GenerateLists
  simp only
  obtain ⟨r1, r2, -⟩ := right_block_frame env w.sel_engine.1 (GenerateLists_left env w)
  obtain ⟨l1, l2, -⟩ := left_block_frame env w
  constructor
  · rw [r1, r2]
    exact left_block_InvA env w h.1
  · apply right_block_InvA
    rw [l1, l2]
    exact h.2

theorem right_block_skip (env : Env) (e : EngineID) (w : Window)
    (h : ¬ (w.update_right = true ∨ e ≠ w.sel_engine.1)) :
    GenerateLists_right env e w = w := by
  rw [GenerateLists_right_eq, if_neg h]

theorem right_block_none (env : Env) (e : EngineID) (w : Window)
    (h : w.update_right = true ∨ e ≠ w.sel_engine.1) (h0 : w.sel_engine.1 = INVALID_ENGINE) :
    (GenerateLists_right env e w).list.2 = [] ∧
      (GenerateLists_right env e w).sel_engine.2 = INVALID_ENGINE := by
  rw [GenerateLists_right_eq, if_pos h, if_pos h0]
  exact ⟨rfl, rfl⟩

theorem GenerateLists_InvC (env : Env) (w : Window) (h : InvC w) :
    InvC (GenerateLists env w) := by
  unfold InvC GenerateLists at *
  simp only
  intro _ h0
  obtain ⟨l1, l2, l3, -⟩ := left_block_frame env w
  obtain ⟨-, r2, -⟩ := right_block_frame env w.sel_engine.1 (GenerateLists_left env w)
  rw [r2] at h0
  by_cases hu : (GenerateLists_left env w).update_right = true ∨
      w.sel_engine.1 ≠ (GenerateLists_left env w).sel_engine.1
  · exact right_block_none env _ _ hu h0
  · rw [right_block_skip env _ _ hu, l1, l2]
    simp only [not_or, not_not] at hu
    rw [l3] at hu
    apply h
    · simpa using hu.1
    · rw [hu.2]; exact h0

theorem getD_mem_of_lt (l : EngineList) (i : Nat) (h : l.length > i) :
    l.getD i INVALID_ENGINE ∈ l := by
  rw [List.getD_eq_getElem l INVALID_ENGINE h]
  exact List.getElem_mem h

theorem click_engine (l : EngineList) (i : Nat) :
    (if l.length > i then l.getD i INVALID_ENGINE else INVALID_ENGINE) = INVALID_ENGINE ∨
    (if l.length > i then l.getD i INVALID_ENGINE else INVALID_ENGINE) ∈ l := by
  split_ifs with h
  · exact Or.inr (getD_mem_of_lt l i h)
  · exact Or.inl rfl

theorem ClickMatrix_InvA (w : Window) (left : Bool) (pt_y : Int) (h : InvA w) :
    InvA (ClickMatrix w left pt_y) := by
  unfold ClickMatrix
  cases left
  · simp only [Bool.false_eq_true, if_false]
    generalize ((pt_y - 14) % 2 ^ 32).toNat / w.resize_step_height = i
    have he := click_engine w.list.2 ((i + w.vscroll2.pos) % 2 ^ 32)
    generalize (if w.list.2.length > (i + w.vscroll2.pos) % 2 ^ 32 then
      w.list.2.getD ((i + w.vscroll2.pos) % 2 ^ 32) INVALID_ENGINE else INVALID_ENGINE) = e at he ⊢
    split_ifs
    · exact h
    · exact ⟨h.1, he⟩
    · exact h
  · simp only [if_true]
    generalize ((pt_y - 14) % 2 ^ 32).toNat / w.resize_step_height = i
    have he := click_engine w.list.1 ((i + w.vscroll.pos) % 2 ^ 32)
    generalize (if w.list.1.length > (i + w.vscroll.pos) % 2 ^ 32 then
      w.list.1.getD ((i + w.vscroll.pos) % 2 ^ 32) INVALID_ENGINE else INVALID_ENGINE) = e at he ⊢
    split_ifs
    · exact h
    · exact ⟨he, h.2⟩
    · exact h

theorem ClickMatrix_InvC (w : Window) (left : Bool) (pt_y : Int) (h : InvC w) :
    InvC (ClickMatrix w left pt_y) := by
  unfold ClickMatrix
  cases left
  · simp only [Bool.false_eq_true, if_false]
    generalize ((pt_y - 14) % 2 ^ 32).toNat / w.resize_step_height = i
    have he := click_engine w.list.2 ((i + w.vscroll2.pos) % 2 ^ 32)
    generalize (if w.list.2.length > (i + w.vscroll2.pos) % 2 ^ 32 then
      w.list.2.getD ((i + w.vscroll2.pos) % 2 ^ 32) INVALID_ENGINE else INVALID_ENGINE) = e at he ⊢
    split_ifs
    · exact h
    · intro hu h0
      obtain ⟨ha, -⟩ := h hu h0
      refine ⟨ha, ?_⟩
      rcases he with he | he
      · exact he
      · rw [ha] at he
        simp at he
    · exact h
  · simp only [if_true]
    generalize ((pt_y - 14) % 2 ^ 32).toNat / w.resize_step_height = i
    generalize (if w.list.1.length > (i + w.vscroll.pos) % 2 ^ 32 then
      w.list.1.getD ((i + w.vscroll.pos) % 2 ^ 32) INVALID_ENGINE else INVALID_ENGINE) = e
    split_ifs
    · exact h
    · intro hu
      simp at hu
    · exact h

theorem WndProc_InvA (env : Env) (w : Window) (e : WindowEvent) (h : InvA w) :
    InvA (ReplaceVehicleWndProc env w e) := by
  cases e with
  | WE_CREATE => simp [ReplaceVehicleWndProc, InvA]
  | WE_PAINT =>
    simp only [ReplaceVehicleWndProc]
    split_ifs
    · exact GenerateLists_InvA env w h
    · exact h
  | WE_CLICK widget pt_y =>
    simp only [ReplaceVehicleWndProc]
    split_ifs
    all_goals first
      | exact h
      | exact ClickMatrix_InvA w _ pt_y h
  | WE_DROPDOWN_SELECT index =>
    simp only [ReplaceVehicleWndProc]
    split_ifs
    · exact h
    · exact h
  | WE_RESIZE dx dy => exact h
  | WE_INVALIDATE_DATA data =>
    simp only [ReplaceVehicleWndProc]
    split_ifs
    · exact h
    · exact h
  | WE_DESTROY => exact h

theorem WndProc_InvC (env : Env) (w : Window) (e : WindowEvent) (h : InvC w) :
    InvC (ReplaceVehicleWndProc env w e) := by
  cases e with
  | WE_CREATE => simp [ReplaceVehicleWndProc, InvC]
  | WE_PAINT =>
    simp only [ReplaceVehicleWndProc]
    split_ifs
    · exact GenerateLists_InvC env w h
    · exact h
  | WE_CLICK widget pt_y =>
    simp only [ReplaceVehicleWndProc]
    split_ifs
    all_goals first
      | exact h
      | exact ClickMatrix_InvC w _ pt_y h
  | WE_DROPDOWN_SELECT index =>
    simp only [ReplaceVehicleWndProc]
    split_ifs
    · exact h
    · intro hu
      simp at hu
  | WE_RESIZE dx dy => exact h
  | WE_INVALIDATE_DATA data =>
    simp only [ReplaceVehicleWndProc]
    split_ifs
    · exact h
    · intro hu
      simp at hu
  | WE_DESTROY => exact h

theorem run_invariant (P : Window → Prop) (hstep : ∀ w i, P w → P (step w i)) :
    ∀ (ins : List Input) (w : Window), P w → P (run w ins) := by
  intro ins
  induction ins with
  | nil => intro w h; exact h
  | cons i is ih => intro w h; exact ih (step w i) (hstep w i h)

theorem step_InvA (w : Window) (i : Input) (h : InvA w) : InvA (step w i) := by
  cases i with
  | event env e => exact WndProc_InvA env w e h
  | scroll v v2 => exact h

theorem step_InvC (w : Window) (i : Input) (h : InvC w) : InvC (step w i) := by
  cases i with
  | event env e => exact WndProc_InvC env w e h
  | scroll v v2 => exact h

theorem reached_InvA (env0 : Env) (w0 : Window) (ins : List Input) :
    InvA (reached env0 w0 ins) :=
  run_invariant InvA step_InvA ins _ (by simp [ReplaceVehicleWndProc, InvA])

theorem reached_InvC (env0 : Env) (w0 : Window) (ins : List Input) :
    InvC (reached env0 w0 ins) :=
  run_invariant InvC step_InvC ins _ (by simp [ReplaceVehicleWndProc, InvC])


/-! ### The order of the lists -/

/-- C1, as stated, fails: a road vehicle dialog is created and drawn while the
player owns engine 1 and may build engine 2 (the source becomes 1, the target
list `[2]`, the target 2); a click on the second row of the left list, below
its only entry, then sets the source selection to NONE while the target list
and the target selection stay as they were until the next draw. -/
theorem C1_counterexample :
    (reached env_road w_road
        [Input.event env_road WE_PAINT,
         Input.event env_road (WE_CLICK RVW_WIDGET_LEFT_MATRIX 28)]).sel_engine.1
      = INVALID_ENGINE ∧
    (reached env_road w_road
        [Input.event env_road WE_PAINT,
         Input.event env_road (WE_CLICK RVW_WIDGET_LEFT_MATRIX 28)]).list.2 = [2] ∧
    (reached env_road w_road
        [Input.event env_road WE_PAINT,
         Input.event env_road (WE_CLICK RVW_WIDGET_LEFT_MATRIX 28)]).sel_engine.2 = 2 := by
  decide

/-- C1, amended (Invariant C): in every state reached from the creation of the
dialog by any sequence of events in which no rebuild of the target list is
pending (`update_right` is clear), and so in every state directly after a draw,
a source selection that is NONE comes with an empty target list and a target
selection that is NONE. -/
theorem C1_invariant_C (env0 : Env) (w0 : Window) (ins : List Input) :
    ((reached env0 w0 ins).update_right = false →
      (reached env0 w0 ins).sel_engine.1 = INVALID_ENGINE →
      (reached env0 w0 ins).list.2 = [] ∧
        (reached env0 w0 ins).sel_engine.2 = INVALID_ENGINE) ∧
    (∀ env : Env,
      (ReplaceVehicleWndProc env (reached env0 w0 ins) WE_PAINT).update_right = false ∧
      ((ReplaceVehicleWndProc env (reached env0 w0 ins) WE_PAINT).sel_engine.1 = INVALID_ENGINE →
        (ReplaceVehicleWndProc env (reached env0 w0 ins) WE_PAINT).list.2 = [] ∧
        (ReplaceVehicleWndProc env (reached env0 w0 ins) WE_PAINT).sel_engine.2
          = INVALID_ENGINE)) := by
  have hp : ∀ (env : Env) (w : Window),
      (ReplaceVehicleWndProc env w WE_PAINT).update_right = false := by
    intro env w
    simp only [ReplaceVehicleWndProc]
    split_ifs with h
    · rfl
    · simp only [not_or] at h
      simpa using h.2
  refine ⟨reached_InvC env0 w0 ins, fun env => ⟨hp env _, ?_⟩⟩
  exact WndProc_InvC env _ WE_PAINT (reached_InvC env0 w0 ins) (hp env _)

/-- The amended C1 at work: after the click of the counterexample the next draw
empties the target side. -/
theorem C1_invariant_C_witness :
    (ReplaceVehicleWndProc env_road
        (reached env_road w_road
          [Input.event env_road WE_PAINT,
           Input.event env_road (WE_CLICK RVW_WIDGET_LEFT_MATRIX 28)]) WE_PAINT).sel_engine.1
      = INVALID_ENGINE ∧
    (ReplaceVehicleWndProc env_road
        (reached env_road w_road
          [Input.event env_road WE_PAINT,
           Input.event env_road (WE_CLICK RVW_WIDGET_LEFT_MATRIX 28)]) WE_PAINT).list.2 = [] ∧
    (ReplaceVehicleWndProc env_road
        (reached env_road w_road
          [Input.event env_road WE_PAINT,
           Input.event env_road (WE_CLICK RVW_WIDGET_LEFT_MATRIX 28)]) WE_PAINT).sel_engine.2
      = INVALID_ENGINE :=
  ⟨by decide,
   ((C1_invariant_C env_road w_road
      [Input.event env_road WE_PAINT,
       Input.event env_road (WE_CLICK RVW_WIDGET_LEFT_MATRIX 28)]).2 env_road).2 (by decide)⟩

/-- C2 (Invariant A): in every state reached from the creation of the dialog,
after `GenerateLists` completes each selection is NONE or an element of the list
of its side; and directly after `GenerateReplaceVehList` rebuilds a side, from
any state, the selection of that side is NONE or an element of the fresh
list. -/
theorem C2_invariant_A :
    (∀ (env0 : Env) (w0 : Window) (ins : List Input) (env : Env),
      ((GenerateLists env (reached env0 w0 ins)).sel_engine.1 = INVALID_ENGINE ∨
        (GenerateLists env (reached env0 w0 ins)).sel_engine.1
          ∈ (GenerateLists env (reached env0 w0 ins)).list.1) ∧
      ((GenerateLists env (reached env0 w0 ins)).sel_engine.2 = INVALID_ENGINE ∨
        (GenerateLists env (reached env0 w0 ins)).sel_engine.2
          ∈ (GenerateLists env (reached env0 w0 ins)).list.2)) ∧
    (∀ (env : Env) (w : Window),
      ((GenerateReplaceVehList env w true).sel_engine.1 = INVALID_ENGINE ∨
        (GenerateReplaceVehList env w true).sel_engine.1
          ∈ (GenerateReplaceVehList env w true).list.1) ∧
      ((GenerateReplaceVehList env w false).sel_engine.2 = INVALID_ENGINE ∨
        (GenerateReplaceVehList env w false).sel_engine.2
          ∈ (GenerateReplaceVehList env w false).list.2)) := by
  refine ⟨fun env0 w0 ins env => GenerateLists_InvA env _ (reached_InvA env0 w0 ins), ?_⟩
  intro env w
  constructor
  · rw [left_sel]
    split_ifs with h
    · exact Or.inr h
    · exact Or.inl rfl
  · rw [right_sel]
    split_ifs with h
    · exact Or.inr h
    · exact Or.inl rfl

/-! ### Lemmas for the cascade -/

theorem right_block_list (env : Env) (e : EngineID) (w : Window)
    (h : w.update_right = true ∨ e ≠ w.sel_engine.1) :
    (GenerateLists_right env e w).list.2 =
      if w.sel_engine.1 = INVALID_ENGINE then []
      else (GenerateReplaceVehList env w false).list.2 := by
  rw [GenerateLists_right_eq, if_pos h]
  split_ifs <;> rfl

/-- When the right block of `GenerateLists` runs, the right list at return is
the one `GenerateReplaceVehList` builds in the returned state, or empty when
nothing is selected on the left. -/
theorem GenerateLists_cascade (env : Env) (w : Window)
    (h : w.update_right = true ∨ (GenerateLists env w).sel_engine.1 ≠ w.sel_engine.1) :
    (GenerateLists env w).list.2 =
      if (GenerateLists env w).sel_engine.1 = INVALID_ENGINE then []
      else (GenerateReplaceVehList env (GenerateLists env w) false).list.2 := by
  obtain ⟨-, -, l3, -, l5, l6, -, l8⟩ := left_block_frame env w
  obtain ⟨-, r2, r3, r4, -, r6⟩ := right_block_frame env w.sel_engine.1 (GenerateLists_left env w)
  have hs : (GenerateLists env w).sel_engine.1 = (GenerateLists_left env w).sel_engine.1 := r2
  have hc : (GenerateLists_left env w).update_right = true ∨
      w.sel_engine.1 ≠ (GenerateLists_left env w).sel_engine.1 := by
    rcases h with h | h
    · exact Or.inl (l3.trans h)
    · right
      rw [hs] at h
      exact fun hc => h hc.symm
  have hl : (GenerateLists env w).list.2 =
      (GenerateLists_right env w.sel_engine.1 (GenerateLists_left env w)).list.2 := rfl
  rw [hl, right_block_list env _ _ hc, hs]
  split_ifs with h0
  · rfl
  · exact (right_list_congr env (GenerateLists_left env w) (GenerateLists env w) r3 r4 r6 r2).symm

theorem step_keeps_update_right (w : Window) (i : Input)
    (hi : ∀ env : Env, i ≠ Input.event env WE_PAINT) (h : w.update_right = true) :
    (step w i).update_right = true := by
  cases i with
  | scroll v v2 => exact h
  | event env e =>
    cases e with
    | WE_PAINT => exact absurd rfl (hi env)
    | WE_CREATE => rfl
    | WE_CLICK widget pt_y =>
      simp only [step, ReplaceVehicleWndProc]
      split_ifs
      all_goals first
        | exact h
        | (unfold ClickMatrix
           simp only
           split_ifs <;> first | exact h | rfl)
    | WE_DROPDOWN_SELECT index =>
      simp only [step, ReplaceVehicleWndProc]
      split_ifs
      · exact h
      · rfl
    | WE_RESIZE dx dy => exact h
    | WE_INVALIDATE_DATA data =>
      simp only [step, ReplaceVehicleWndProc]
      split_ifs
      · exact h
      · rfl
    | WE_DESTROY => exact h

theorem run_keeps_update_right :
    ∀ (ins : List Input) (w : Window),
      (∀ i ∈ ins, ∀ env : Env, i ≠ Input.event env WE_PAINT) →
      w.update_right = true → (run w ins).update_right = true := by
  intro ins
  induction ins with
  | nil => intro w _ h; exact h
  | cons i is ih =>
    intro w hi h
    exact ih (step w i) (fun j hj => hi j (List.mem_cons_of_mem _ hj))
      (step_keeps_update_right w i (hi i (List.mem_cons_self _ _)) h)

theorem click_left_sets_update_right (w : Window) (pt_y : Int)
    (h : (ClickMatrix w true pt_y).sel_engine.1 ≠ w.sel_engine.1) :
    (ClickMatrix w true pt_y).update_right = true := by
  revert h
  unfold ClickMatrix
  simp only [if_true]
  split_ifs
  all_goals first
    | (intro h; exact absurd rfl h)
    | (intro _; rfl)

theorem paint_list (env : Env) (w : Window) (h : w.update_right = true) :
    (ReplaceVehicleWndProc env w WE_PAINT).list.2 =
      if (ReplaceVehicleWndProc env w WE_PAINT).sel_engine.1 = INVALID_ENGINE then []
      else (GenerateReplaceVehList env (ReplaceVehicleWndProc env w WE_PAINT) false).list.2 := by
  have hg : (if w.update_left = true ∨ w.update_right = true then GenerateLists env w else w)
      = GenerateLists env w := if_pos (Or.inr h)
  have e1 : (ReplaceVehicleWndProc env w WE_PAINT).list.2 = (GenerateLists env w).list.2 := by
    simp only [ReplaceVehicleWndProc, hg]
  have e2 : (ReplaceVehicleWndProc env w WE_PAINT).sel_engine.1
      = (GenerateLists env w).sel_engine.1 := by
    simp only [ReplaceVehicleWndProc, hg]
  have e3 : (GenerateReplaceVehList env (ReplaceVehicleWndProc env w WE_PAINT) false).list.2
      = (GenerateReplaceVehList env (GenerateLists env w) false).list.2 := by
    apply right_list_congr <;> simp only [ReplaceVehicleWndProc, hg]
  rw [e1, e2, e3]
  exact GenerateLists_cascade env w (Or.inl h)

/-- C3 (Invariant B, the cascade): whenever `GenerateLists` is entered with
`update_right` set or changes the source selection in its left block, the target
list it returns is the one `GenerateReplaceVehList` builds against the source
selection it returns, and is empty when that selection is NONE; and after a
click on the left list that picked a different engine, whatever events other
than a draw follow, the next draw returns such a target list, with no
invalidation of the right side needed. -/
theorem C3_cascade :
    (∀ (env : Env) (w : Window),
      (w.update_right = true ∨ (GenerateLists env w).sel_engine.1 ≠ w.sel_engine.1) →
      (GenerateLists env w).list.2 =
        if (GenerateLists env w).sel_engine.1 = INVALID_ENGINE then []
        else (GenerateReplaceVehList env (GenerateLists env w) false).list.2) ∧
    (∀ (env env1 : Env) (w : Window) (pt_y : Int) (ins : List Input),
      (ReplaceVehicleWndProc env w (WE_CLICK RVW_WIDGET_LEFT_MATRIX pt_y)).sel_engine.1
        ≠ w.sel_engine.1 →
      (∀ i ∈ ins, ∀ env2 : Env, i ≠ Input.event env2 WE_PAINT) →
      (ReplaceVehicleWndProc env1
          (run (ReplaceVehicleWndProc env w (WE_CLICK RVW_WIDGET_LEFT_MATRIX pt_y)) ins)
          WE_PAINT).list.2 =
        if (ReplaceVehicleWndProc env1
            (run (ReplaceVehicleWndProc env w (WE_CLICK RVW_WIDGET_LEFT_MATRIX pt_y)) ins)
            WE_PAINT).sel_engine.1 = INVALID_ENGINE then []
        else (GenerateReplaceVehList env1
          (ReplaceVehicleWndProc env1
            (run (ReplaceVehicleWndProc env w (WE_CLICK RVW_WIDGET_LEFT_MATRIX pt_y)) ins)
            WE_PAINT) false).list.2) := by
  refine ⟨GenerateLists_cascade, ?_⟩
  intro env env1 w pt_y ins hc hi
  apply paint_list
  apply run_keeps_update_right ins _ hi
  have hw : ReplaceVehicleWndProc env w (WE_CLICK RVW_WIDGET_LEFT_MATRIX pt_y)
      = ClickMatrix w true pt_y := by
    simp [ReplaceVehicleWndProc, RVW_WIDGET_LEFT_MATRIX, RVW_WIDGET_TRAIN_ENGINEWAGON_TOGGLE,
      RVW_WIDGET_TRAIN_RAILTYPE_DROPDOWN, RVW_WIDGET_TRAIN_WAGONREMOVE_TOGGLE,
      RVW_WIDGET_START_REPLACE, RVW_WIDGET_STOP_REPLACE]
  rw [hw] at hc ⊢
  exact click_left_sets_update_right w pt_y hc

/-- The cascade at work: the dialog of `env_road3` is drawn (source 1, target
list `[2, 3]`), a click on the second row of the left list picks engine 2, and
the next draw returns the target list built against engine 2. -/
theorem C3_cascade_witness :
    (ReplaceVehicleWndProc env_road3 (reached env_road3 w_road [Input.event env_road3 WE_PAINT])
        (WE_CLICK RVW_WIDGET_LEFT_MATRIX 28)).sel_engine.1
      ≠ (reached env_road3 w_road [Input.event env_road3 WE_PAINT]).sel_engine.1 ∧
    (ReplaceVehicleWndProc env_road3
        (run (ReplaceVehicleWndProc env_road3
          (reached env_road3 w_road [Input.event env_road3 WE_PAINT])
          (WE_CLICK RVW_WIDGET_LEFT_MATRIX 28)) [Input.event env_road3 (WE_INVALIDATE_DATA 1)])
        WE_PAINT).list.2 =
      (if (ReplaceVehicleWndProc env_road3
          (run (ReplaceVehicleWndProc env_road3
            (reached env_road3 w_road [Input.event env_road3 WE_PAINT])
            (WE_CLICK RVW_WIDGET_LEFT_MATRIX 28)) [Input.event env_road3 (WE_INVALIDATE_DATA 1)])
          WE_PAINT).sel_engine.1 = INVALID_ENGINE then []
       else (GenerateReplaceVehList env_road3
        (ReplaceVehicleWndProc env_road3
          (run (ReplaceVehicleWndProc env_road3
            (reached env_road3 w_road [Input.event env_road3 WE_PAINT])
            (WE_CLICK RVW_WIDGET_LEFT_MATRIX 28)) [Input.event env_road3 (WE_INVALIDATE_DATA 1)])
          WE_PAINT) false).list.2) ∧
    (ReplaceVehicleWndProc env_road3
        (run (ReplaceVehicleWndProc env_road3
          (reached env_road3 w_road [Input.event env_road3 WE_PAINT])
          (WE_CLICK RVW_WIDGET_LEFT_MATRIX 28)) [Input.event env_road3 (WE_INVALIDATE_DATA 1)])
        WE_PAINT).list.2 = [1, 3] :=
  ⟨by decide,
   C3_cascade.2 env_road3 env_road3 (reached env_road3 w_road [Input.event env_road3 WE_PAINT])
     28 [Input.event env_road3 (WE_INVALIDATE_DATA 1)] (by decide)
     (by
      intro i hi env2 hc
      simp only [List.mem_singleton] at hi
      rw [hi] at hc
      injection hc with _ h2
      exact WindowEvent.noConfusion h2),
   by decide⟩

/-- C4 (list membership): the list `GenerateReplaceVehList` produces for a
side holds exactly the catalog engines of the window's vehicle type that pass
the filters of the side: for rail the rail predicate of the side; on the source
side an owned count that is not zero or a replacement rule; on the target side
buildable, cargo compatible with the source selection, for road vehicles the
tram flag of the source selection, and not the source selection itself. -/
theorem C4_list_membership (env : Env) (w : Window) (eid : EngineID) :
    (eid ∈ (GenerateReplaceVehList env w true).list.1 ↔
      eid ∈ env.engines ∧ env.GetEngine_type eid = w.window_number ∧
      (w.window_number = VEH_TRAIN →
        GenerateReplaceRailList env w.railtype_selected_in_replace_gui eid true
          w.wagon_btnstate = true) ∧
      (env.GetGroupNumEngines w.sel_group eid ≠ 0 ∨
        env.EngineReplacementForPlayer eid w.sel_group ≠ INVALID_ENGINE)) ∧
    (eid ∈ (GenerateReplaceVehList env w false).list.2 ↔
      eid ∈ env.engines ∧ env.GetEngine_type eid = w.window_number ∧
      (w.window_number = VEH_TRAIN →
        GenerateReplaceRailList env w.railtype_selected_in_replace_gui eid false
          w.wagon_btnstate = true) ∧
      env.IsEngineBuildable eid w.window_number = true ∧
      EnginesGotCargoInCommon env eid w.sel_engine.1 = true ∧
      (w.window_number = VEH_ROAD →
        HasBit (env.EngInfo eid).misc_flags EF_ROAD_TRAM
          = HasBit (env.EngInfo w.sel_engine.1).misc_flags EF_ROAD_TRAM) ∧
      eid ≠ w.sel_engine.1) := by
  constructor
  · rw [left_list_mem]
    simp [SidePredicate]
  · rw [right_list_mem]
    simp [SidePredicate]

/-- The membership of C4 on the catalog of `env_road3` with source selection 1:
engine 3 is in the target list, and so it is buildable and is not the source
selection. -/
theorem C4_list_membership_witness :
    3 ∈ (GenerateReplaceVehList env_road3
      (reached env_road3 w_road [Input.event env_road3 WE_PAINT]) false).list.2 ∧
    env_road3.IsEngineBuildable 3 VEH_ROAD = true ∧
    (3 : EngineID) ≠ (reached env_road3 w_road [Input.event env_road3 WE_PAINT]).sel_engine.1 :=
  ⟨by decide,
   (((C4_list_membership env_road3
      (reached env_road3 w_road [Input.event env_road3 WE_PAINT]) 3).2).1 (by decide)).2.2.2.1,
   (((C4_list_membership env_road3
      (reached env_road3 w_road [Input.event env_road3 WE_PAINT]) 3).2).1 (by decide)).2.2.2.2.2.2⟩

/-- C5, as stated, fails: in wagon mode the flag match alone does not decide.
Engine 7 of `env_maglev_wagon` is a wagon, the mode is wagon and the selected
rail type is plain rail, with which maglev is not compatible: the wagon is in
neither list. -/
theorem C5_counterexample :
    (env_maglev_wagon.RailVehInfo 7).railveh_type = RAILVEH_WAGON ∧
    GenerateReplaceRailList env_maglev_wagon 0 7 true false = false ∧
    GenerateReplaceRailList env_maglev_wagon 0 7 false false = false := by
  decide

/-- C5, amended (rail predicates): for the source side `GenerateReplaceRailList`
returns true exactly when the wagon/locomotive flag of the engine matches the
mode and the rail type of the engine equals the selected rail type in
locomotive mode, and is compatible with it (`IsCompatibleRail`) in wagon mode;
for the target side exactly when the flag matches the mode and the rail type of
the engine is compatible with the selected one, in both modes. -/
theorem C5_rail_predicates (env : Env) (railtype_selected : RailType) (e : EngineID)
    (show_engines : Bool) :
    (GenerateReplaceRailList env railtype_selected e true show_engines = true ↔
      ((env.RailVehInfo e).railveh_type = RAILVEH_WAGON ↔ show_engines = false) ∧
      (show_engines = true → (env.RailVehInfo e).railtype = railtype_selected) ∧
      (show_engines = false →
        env.IsCompatibleRail (env.RailVehInfo e).railtype railtype_selected = true)) ∧
    (GenerateReplaceRailList env railtype_selected e false show_engines = true ↔
      ((env.RailVehInfo e).railveh_type = RAILVEH_WAGON ↔ show_engines = false) ∧
      env.IsCompatibleRail (env.RailVehInfo e).railtype railtype_selected = true) := by
  unfold GenerateReplaceRailList
  cases show_engines <;> simp

/-- The amended C5 on engine 7 of `env_maglev_wagon` with maglev selected: in wagon
mode the wagon is in the source list. -/
theorem C5_rail_predicates_witness :
    GenerateReplaceRailList env_maglev_wagon 3 7 true false = true :=
  (C5_rail_predicates env_maglev_wagon 3 7 false).1.2 (by decide)

theorem land_ne_zero_iff (m n : Nat) :
    m &&& n ≠ 0 ↔ ∃ i, Nat.testBit m i = true ∧ Nat.testBit n i = true := by
  constructor
  · intro h
    by_contra hc
    push_neg at hc
    apply h
    apply Nat.eq_of_testBit_eq
    intro i
    rw [Nat.testBit_land, Nat.zero_testBit]
    cases hm : Nat.testBit m i
    · simp
    · simpa using hc i hm
  · rintro ⟨i, hm, hn⟩ h0
    have := Nat.testBit_land m n i
    rw [h0, Nat.zero_testBit, hm, hn] at this
    simp at this

/-- C6 (cargo compatibility): `EnginesGotCargoInCommon` is true exactly when
the effective cargo of one of the two engines is NONE, or the two effective
cargos are equal, or the two refit masks have a bit in common, or one of the
engines can be refitted to the effective cargo of the other; and a catalog
engine that carries a cargo other than the cargo the source selection carries,
with a refit mask disjoint from that of the source selection and no refit
either way, is not in the target list `GenerateReplaceVehList` builds. -/
theorem C6_cargo_in_common :
    (∀ (env : Env) (a b : EngineID),
      EnginesGotCargoInCommon env a b = true ↔
        EngineCargo env a = CT_INVALID ∨ EngineCargo env b = CT_INVALID ∨
        EngineCargo env a = EngineCargo env b ∨
        (∃ i, Nat.testBit (env.EngInfo a).refit_mask i = true ∧
          Nat.testBit (env.EngInfo b).refit_mask i = true) ∨
        env.CanRefitTo a (EngineCargo env b) = true ∨
        env.CanRefitTo b (EngineCargo env a) = true) ∧
    (∀ (env : Env) (w : Window) (eid : EngineID),
      EngineCargo env eid ≠ CT_INVALID →
      EngineCargo env w.sel_engine.1 ≠ CT_INVALID →
      EngineCargo env eid ≠ EngineCargo env w.sel_engine.1 →
      (∀ i, ¬ (Nat.testBit (env.EngInfo eid).refit_mask i = true ∧
        Nat.testBit (env.EngInfo w.sel_engine.1).refit_mask i = true)) →
      env.CanRefitTo eid (EngineCargo env w.sel_engine.1) = false →
      env.CanRefitTo w.sel_engine.1 (EngineCargo env eid) = false →
      eid ∉ (GenerateReplaceVehList env w false).list.2) := by
  have key : ∀ (env : Env) (a b : EngineID),
      EnginesGotCargoInCommon env a b = true ↔
        EngineCargo env a = CT_INVALID ∨ EngineCargo env b = CT_INVALID ∨
        EngineCargo env a = EngineCargo env b ∨
        (∃ i, Nat.testBit (env.EngInfo a).refit_mask i = true ∧
          Nat.testBit (env.EngInfo b).refit_mask i = true) ∨
        env.CanRefitTo a (EngineCargo env b) = true ∨
        env.CanRefitTo b (EngineCargo env a) = true := by
    intro env a b
    rw [← land_ne_zero_iff]
    unfold EnginesGotCargoInCommon
    simp only
    split_ifs with h1 h2 h3
    · simp only [true_iff]
      tauto
    · simp only [true_iff]
      tauto
    · simp only [true_iff]
      simp only [Bool.or_eq_true] at h3
      tauto
    · simp only [Bool.or_eq_true] at h3
      simp only [Bool.false_eq_true, false_iff]
      tauto
  refine ⟨key, ?_⟩
  intro env w eid h1 h2 h3 h4 h5 h6 hmem
  rw [right_list_mem] at hmem
  have hs := hmem.2.2
  unfold SidePredicate at hs
  have hc := (key env eid w.sel_engine.1).1 (hs.2.2 rfl).2.1
  rcases hc with hc | hc | hc | ⟨i, hi⟩ | hc | hc
  · exact h1 hc
  · exact h2 hc
  · exact h3 hc
  · exact h4 i hi
  · rw [h5] at hc; exact Bool.noConfusion hc
  · rw [h6] at hc; exact Bool.noConfusion hc

/-- Scenario 2 of the specification as an instance of C6: the source selection
is the passenger locomotive 1 of `env_mail`; the mail locomotive 2, with a
disjoint refit mask and no refit, is not in the target list. -/
theorem C6_cargo_in_common_witness :
    (reached env_mail w_train [Input.event env_mail WE_PAINT]).sel_engine.1 = 1 ∧
    EngineCargo env_mail 2 ≠ EngineCargo env_mail 1 ∧
    2 ∉ (GenerateReplaceVehList env_mail
      (reached env_mail w_train [Input.event env_mail WE_PAINT]) false).list.2 :=
  ⟨by decide, by decide,
   C6_cargo_in_common.2 env_mail (reached env_mail w_train [Input.event env_mail WE_PAINT]) 2
     (by decide) (by decide) (by decide)
     (by
      intro i
      have h : (reached env_mail w_train [Input.event env_mail WE_PAINT]).sel_engine.1 = 1 := by
        decide
      rw [h]
      intro hc
      have h0 : (env_mail.EngInfo 2).refit_mask &&& (env_mail.EngInfo 1).refit_mask ≠ 0 :=
        (land_ne_zero_iff _ _).2 ⟨i, hc⟩
      exact h0 (by decide))
     (by decide) (by decide)⟩

/-- C7: the code at the failing input.  Engine 1 of `env_no_capacity` is a road
vehicle with a cargo capacity of zero; `EngineCargo` returns its declared cargo,
not NONE (`CT_INVALID`), since only the train branch looks at the capacity. -/
theorem C7_road_zero_capacity :
    env_no_capacity.GetEngine_type 1 = VEH_ROAD ∧
    (env_no_capacity.RoadVehInfo 1).capacity = 0 ∧
    EngineCargo env_no_capacity 1 = 5 ∧
    EngineCargo env_no_capacity 1 ≠ CT_INVALID := by
  decide

/-- C8 (selection preservation): when `GenerateReplaceVehList` rebuilds a side
on which engine X is selected, the selection of that side is X afterwards if X
is in the rebuilt list, and NONE if it is not. -/
theorem C8_selection_preservation (env : Env) (w : Window) :
    ((w.sel_engine.1 ∈ (GenerateReplaceVehList env w true).list.1 →
        (GenerateReplaceVehList env w true).sel_engine.1 = w.sel_engine.1) ∧
      (w.sel_engine.1 ∉ (GenerateReplaceVehList env w true).list.1 →
        (GenerateReplaceVehList env w true).sel_engine.1 = INVALID_ENGINE)) ∧
    ((w.sel_engine.2 ∈ (GenerateReplaceVehList env w false).list.2 →
        (GenerateReplaceVehList env w false).sel_engine.2 = w.sel_engine.2) ∧
      (w.sel_engine.2 ∉ (GenerateReplaceVehList env w false).list.2 →
        (GenerateReplaceVehList env w false).sel_engine.2 = INVALID_ENGINE)) := by
  refine ⟨⟨fun h => ?_, fun h => ?_⟩, ⟨fun h => ?_, fun h => ?_⟩⟩
  · rw [left_sel, if_pos h]
  · rw [left_sel, if_neg h]
  · rw [right_sel, if_pos h]
  · rw [right_sel, if_neg h]

/-- The preservation of C8 on the drawn dialog of `env_road3` (source 1, target
2): a rebuild of the source list keeps engine 1 selected, and a rebuild of the
same side when nothing is owned any more (`env_none`) leaves NONE. -/
theorem C8_selection_preservation_witness :
    (reached env_road3 w_road [Input.event env_road3 WE_PAINT]).sel_engine.1 = 1 ∧
    (GenerateReplaceVehList env_road3
      (reached env_road3 w_road [Input.event env_road3 WE_PAINT]) true).sel_engine.1 = 1 ∧
    (GenerateReplaceVehList env_none
      (reached env_road3 w_road [Input.event env_road3 WE_PAINT]) true).sel_engine.1
        = INVALID_ENGINE :=
  ⟨by decide,
   (C8_selection_preservation env_road3
      (reached env_road3 w_road [Input.event env_road3 WE_PAINT])).1.1 (by decide),
   (C8_selection_preservation env_none
      (reached env_road3 w_road [Input.event env_road3 WE_PAINT])).1.2 (by decide)⟩

theorem head_of_ne_nil (l : EngineList) (h : l ≠ []) :
    l.head? = some (l.getD 0 INVALID_ENGINE) := by
  cases l with
  | nil => exact absurd rfl h
  | cons x xs => rfl

/-- C10 (Start Replacing enablement): the draw step leaves the Start Replacing
button enabled exactly when both selections are not NONE, the selected target
has no replacement rule of its own in the group of the dialog, and the selected
target is not the replacement the selected source already has in that group; so
the button is disabled when the rule of the source already points to the
selected target, and when the selected target has a rule of its own. -/
theorem C10_start_replacing (env : Env) (w : Window) :
    ((ReplaceVehicleWndProc env w WE_PAINT).disabled_START_REPLACE = false ↔
      (ReplaceVehicleWndProc env w WE_PAINT).sel_engine.1 ≠ INVALID_ENGINE ∧
      (ReplaceVehicleWndProc env w WE_PAINT).sel_engine.2 ≠ INVALID_ENGINE ∧
      env.EngineReplacementForPlayer (ReplaceVehicleWndProc env w WE_PAINT).sel_engine.2
        (ReplaceVehicleWndProc env w WE_PAINT).sel_group = INVALID_ENGINE ∧
      env.EngineReplacementForPlayer (ReplaceVehicleWndProc env w WE_PAINT).sel_engine.1
        (ReplaceVehicleWndProc env w WE_PAINT).sel_group
          ≠ (ReplaceVehicleWndProc env w WE_PAINT).sel_engine.2) ∧
    (env.EngineReplacementForPlayer (ReplaceVehicleWndProc env w WE_PAINT).sel_engine.1
        (ReplaceVehicleWndProc env w WE_PAINT).sel_group
          = (ReplaceVehicleWndProc env w WE_PAINT).sel_engine.2 →
      (ReplaceVehicleWndProc env w WE_PAINT).disabled_START_REPLACE = true) ∧
    (env.EngineReplacementForPlayer (ReplaceVehicleWndProc env w WE_PAINT).sel_engine.2
        (ReplaceVehicleWndProc env w WE_PAINT).sel_group ≠ INVALID_ENGINE →
      (ReplaceVehicleWndProc env w WE_PAINT).disabled_START_REPLACE = true) := by
  simp only [ReplaceVehicleWndProc]
  generalize (if w.update_left = true ∨ w.update_right = true then GenerateLists env w else w) = v
  simp only [decide_eq_false_iff_not, decide_eq_true_eq, not_or, ne_eq, not_not]
  refine ⟨trivial, ?_, ?_⟩
  · intro h; exact Or.inr (Or.inr (Or.inr h))
  · intro h; exact Or.inr (Or.inr (Or.inl h))

/-- Scenario 3 of the specification as an instance of C10: with a rule from
engine 1 to engine 2 in place, source 1 and target 2 selected, the draw disables
Start Replacing (and leaves Stop Replacing enabled). -/
theorem C10_start_replacing_witness :
    (ReplaceVehicleWndProc env_rule (ReplaceVehicleWndProc env_rule w_road WE_CREATE)
      WE_PAINT).sel_engine = (1, 2) ∧
    (ReplaceVehicleWndProc env_rule (ReplaceVehicleWndProc env_rule w_road WE_CREATE)
      WE_PAINT).disabled_START_REPLACE = true ∧
    (ReplaceVehicleWndProc env_rule (ReplaceVehicleWndProc env_rule w_road WE_CREATE)
      WE_PAINT).disabled_STOP_REPLACE = false :=
  ⟨by decide,
   (C10_start_replacing env_rule (ReplaceVehicleWndProc env_rule w_road WE_CREATE)).2.1
     (by decide),
   by decide⟩

/-! ## Further properties of the list builder -/

/-- Idempotence of the rebuild (specification, section 8): running
`GenerateReplaceVehList` for a side twice in a row, with nothing changed in
between, gives the same window state as running it once, so the same list and
the same selection. -/
theorem X1_rebuild_idempotent (env : Env) (w : Window) (draw_left : Bool) :
    GenerateReplaceVehList env (GenerateReplaceVehList env w draw_left) draw_left
      = GenerateReplaceVehList env w draw_left := by
  cases draw_left
  · have hL : (GenerateReplaceVehList env (GenerateReplaceVehList env w false) false).list.2
        = (GenerateReplaceVehList env w false).list.2 := by
      apply right_list_congr <;> rw [right_frame env w]
    have hS : (GenerateReplaceVehList env (GenerateReplaceVehList env w false) false).sel_engine.2
        = (GenerateReplaceVehList env w false).sel_engine.2 := by
      rw [right_sel env (GenerateReplaceVehList env w false), hL]
      split_ifs with h
      · rfl
      · rw [right_sel env w] at h ⊢
        split_ifs at h ⊢ with h2
        · exact absurd h2 h
        · rfl
    rw [right_frame env (GenerateReplaceVehList env w false), hL, hS]
  · have hL : (GenerateReplaceVehList env (GenerateReplaceVehList env w true) true).list.1
        = (GenerateReplaceVehList env w true).list.1 := by
      apply left_list_congr <;> rw [left_frame env w]
    have hS : (GenerateReplaceVehList env (GenerateReplaceVehList env w true) true).sel_engine.1
        = (GenerateReplaceVehList env w true).sel_engine.1 := by
      rw [left_sel env (GenerateReplaceVehList env w true), hL]
      split_ifs with h
      · rfl
      · rw [left_sel env w] at h ⊢
        split_ifs at h ⊢ with h2
        · exact absurd h2 h
        · rfl
    rw [left_frame env (GenerateReplaceVehList env w true), hL, hS]

/-- Scenario 1 of the specification: a rail dialog in locomotive mode with
plain rail selected, on a catalog of three locomotives (two on plain rail, one
on electrified rail) and two wagons, builds a source list of exactly the two
plain rail locomotives, in the order of their list positions. -/
theorem X2_scenario1 :
    (GenerateReplaceVehList env_scenario1
      (ReplaceVehicleWndProc env_scenario1 w_train WE_CREATE) true).list.1 = [3, 1] := by
  decide

/-- Stop Replacing enablement: the draw step leaves the Stop Replacing button
enabled exactly when a source is selected and it has a replacement rule in the
group of the dialog. -/
theorem X3_stop_replacing (env : Env) (w : Window) :
    (ReplaceVehicleWndProc env w WE_PAINT).disabled_STOP_REPLACE = false ↔
      (ReplaceVehicleWndProc env w WE_PAINT).sel_engine.1 ≠ INVALID_ENGINE ∧
      env.EngineHasReplacementForPlayer (ReplaceVehicleWndProc env w WE_PAINT).sel_engine.1
        (ReplaceVehicleWndProc env w WE_PAINT).sel_group = true := by
  simp only [ReplaceVehicleWndProc]
  generalize (if w.update_left = true ∨ w.update_right = true then GenerateLists env w else w) = v
  simp

/-! ### The click on a list -/

theorem WndProc_click_left (env : Env) (w : Window) (pt_y : Int) :
    ReplaceVehicleWndProc env w (WE_CLICK RVW_WIDGET_LEFT_MATRIX pt_y)
      = ClickMatrix w true pt_y := by
  simp [ReplaceVehicleWndProc, RVW_WIDGET_LEFT_MATRIX, RVW_WIDGET_TRAIN_ENGINEWAGON_TOGGLE,
    RVW_WIDGET_TRAIN_RAILTYPE_DROPDOWN, RVW_WIDGET_TRAIN_WAGONREMOVE_TOGGLE,
    RVW_WIDGET_START_REPLACE, RVW_WIDGET_STOP_REPLACE]

theorem WndProc_click_right (env : Env) (w : Window) (pt_y : Int) :
    ReplaceVehicleWndProc env w (WE_CLICK RVW_WIDGET_RIGHT_MATRIX pt_y)
      = ClickMatrix w false pt_y := by
  simp [ReplaceVehicleWndProc, RVW_WIDGET_LEFT_MATRIX, RVW_WIDGET_RIGHT_MATRIX,
    RVW_WIDGET_TRAIN_ENGINEWAGON_TOGGLE,
    RVW_WIDGET_TRAIN_RAILTYPE_DROPDOWN, RVW_WIDGET_TRAIN_WAGONREMOVE_TOGGLE,
    RVW_WIDGET_START_REPLACE, RVW_WIDGET_STOP_REPLACE]

/-- The engine a click at index `i` of the list `l` resolves to. -/
theorem clicked_engine (l : EngineList) (i : Nat) :
    (∀ h : i < l.length,
      (if l.length > i then l.getD i INVALID_ENGINE else INVALID_ENGINE) = l.get ⟨i, h⟩) ∧
    (l.length ≤ i →
      (if l.length > i then l.getD i INVALID_ENGINE else INVALID_ENGINE) = INVALID_ENGINE) := by
  constructor
  · intro h
    rw [if_pos h, List.getD_eq_getElem l INVALID_ENGINE h]
    rfl
  · intro h
    rw [if_neg (by omega)]

theorem ClickMatrix_left (w : Window) (pt_y : Int)
    (hrow : ((pt_y - 14) % 2 ^ 32).toNat / w.resize_step_height < w.vscroll.cap)
    (hcap : w.vscroll.cap < 2 ^ 16) (hpos : w.vscroll.pos < 2 ^ 16) :
    (∀ h : ((pt_y - 14) % 2 ^ 32).toNat / w.resize_step_height + w.vscroll.pos
        < w.list.1.length,
      (ClickMatrix w true pt_y).sel_engine.1 = w.list.1.get
        ⟨((pt_y - 14) % 2 ^ 32).toNat / w.resize_step_height + w.vscroll.pos, h⟩) ∧
    (w.list.1.length ≤ ((pt_y - 14) % 2 ^ 32).toNat / w.resize_step_height + w.vscroll.pos →
      (ClickMatrix w true pt_y).sel_engine.1 = INVALID_ENGINE) ∧
    ((ClickMatrix w true pt_y).sel_engine.1 = w.sel_engine.1 → ClickMatrix w true pt_y = w) ∧
    ((ClickMatrix w true pt_y).sel_engine.1 ≠ w.sel_engine.1 →
      (ClickMatrix w true pt_y).update_right = true) ∧
    (ClickMatrix w true pt_y).list = w.list ∧
    (ClickMatrix w true pt_y).sel_engine.2 = w.sel_engine.2 := by
  unfold ClickMatrix
  simp only [if_true]
  revert hrow
  generalize ((pt_y - 14) % 2 ^ 32).toNat / w.resize_step_height = i
  intro hrow
  have hm : (i + w.vscroll.pos) % 2 ^ 32 = i + w.vscroll.pos :=
    Nat.mod_eq_of_lt (by omega)
  have he := clicked_engine w.list.1 (i + w.vscroll.pos)
  simp only [if_pos hrow, hm]
  generalize (if w.list.1.length > i + w.vscroll.pos then
    w.list.1.getD (i + w.vscroll.pos) INVALID_ENGINE else INVALID_ENGINE) = e at he ⊢
  by_cases hs : e = w.sel_engine.1
  · rw [if_pos hs]
    refine ⟨fun h => ?_, fun h => ?_, fun _ => rfl, fun h => absurd rfl h, rfl, rfl⟩
    · rw [← hs]; exact he.1 h
    · rw [← hs]; exact he.2 h
  · rw [if_neg hs]
    exact ⟨he.1, he.2, fun h => absurd h hs, fun _ => rfl, rfl, rfl⟩

theorem ClickMatrix_right (w : Window) (pt_y : Int)
    (hrow : ((pt_y - 14) % 2 ^ 32).toNat / w.resize_step_height < w.vscroll2.cap)
    (hcap : w.vscroll2.cap < 2 ^ 16) (hpos : w.vscroll2.pos < 2 ^ 16) :
    (∀ h : ((pt_y - 14) % 2 ^ 32).toNat / w.resize_step_height + w.vscroll2.pos
        < w.list.2.length,
      (ClickMatrix w false pt_y).sel_engine.2 = w.list.2.get
        ⟨((pt_y - 14) % 2 ^ 32).toNat / w.resize_step_height + w.vscroll2.pos, h⟩) ∧
    (w.list.2.length ≤ ((pt_y - 14) % 2 ^ 32).toNat / w.resize_step_height + w.vscroll2.pos →
      (ClickMatrix w false pt_y).sel_engine.2 = INVALID_ENGINE) ∧
    ((ClickMatrix w false pt_y).sel_engine.2 = w.sel_engine.2 → ClickMatrix w false pt_y = w) ∧
    (ClickMatrix w false pt_y).list = w.list ∧
    (ClickMatrix w false pt_y).sel_engine.1 = w.sel_engine.1 := by
  unfold ClickMatrix
  simp only [Bool.false_eq_true, if_false]
  revert hrow
  generalize ((pt_y - 14) % 2 ^ 32).toNat / w.resize_step_height = i
  intro hrow
  have hm : (i + w.vscroll2.pos) % 2 ^ 32 = i + w.vscroll2.pos :=
    Nat.mod_eq_of_lt (by omega)
  have he := clicked_engine w.list.2 (i + w.vscroll2.pos)
  simp only [if_pos hrow, hm]
  generalize (if w.list.2.length > i + w.vscroll2.pos then
    w.list.2.getD (i + w.vscroll2.pos) INVALID_ENGINE else INVALID_ENGINE) = e at he ⊢
  by_cases hs : e = w.sel_engine.2
  · rw [if_pos hs]
    refine ⟨fun h => ?_, fun h => ?_, fun _ => rfl, rfl, rfl⟩
    · rw [← hs]; exact he.1 h
    · rw [← hs]; exact he.2 h
  · rw [if_neg hs]
    exact ⟨he.1, he.2, fun h => absurd h hs, rfl, rfl⟩

/-- C11 (list click resolution): a click on the left or the right list matrix
is the function `ClickMatrix`; with the 16 bit scroll fields in range and the
row `(y - 14) / row_height` (unsigned) below the visible-row capacity, the
clicked index is row + scroll offset: below the list length the selection of
the side becomes the engine at that index of the list, at or beyond it the
selection becomes NONE; a click that resolves to the engine already selected
leaves the window as it is; a click that changes the source selection sets
`update_right`; the lists and the selection of the other side stay as they
are. -/
theorem C11_click_resolution (env : Env) (w : Window) (pt_y : Int)
    (hcap : w.vscroll.cap < 2 ^ 16) (hpos : w.vscroll.pos < 2 ^ 16)
    (hcap2 : w.vscroll2.cap < 2 ^ 16) (hpos2 : w.vscroll2.pos < 2 ^ 16) :
    (ReplaceVehicleWndProc env w (WE_CLICK RVW_WIDGET_LEFT_MATRIX pt_y)
        = ClickMatrix w true pt_y ∧
      ReplaceVehicleWndProc env w (WE_CLICK RVW_WIDGET_RIGHT_MATRIX pt_y)
        = ClickMatrix w false pt_y) ∧
    (((pt_y - 14) % 2 ^ 32).toNat / w.resize_step_height < w.vscroll.cap →
      (∀ h : ((pt_y - 14) % 2 ^ 32).toNat / w.resize_step_height + w.vscroll.pos
          < w.list.1.length,
        (ClickMatrix w true pt_y).sel_engine.1 = w.list.1.get
          ⟨((pt_y - 14) % 2 ^ 32).toNat / w.resize_step_height + w.vscroll.pos, h⟩) ∧
      (w.list.1.length ≤ ((pt_y - 14) % 2 ^ 32).toNat / w.resize_step_height + w.vscroll.pos →
        (ClickMatrix w true pt_y).sel_engine.1 = INVALID_ENGINE) ∧
      ((ClickMatrix w true pt_y).sel_engine.1 = w.sel_engine.1 → ClickMatrix w true pt_y = w) ∧
      ((ClickMatrix w true pt_y).sel_engine.1 ≠ w.sel_engine.1 →
        (ClickMatrix w true pt_y).update_right = true) ∧
      (ClickMatrix w true pt_y).list = w.list ∧
      (ClickMatrix w true pt_y).sel_engine.2 = w.sel_engine.2) ∧
    (((pt_y - 14) % 2 ^ 32).toNat / w.resize_step_height < w.vscroll2.cap →
      (∀ h : ((pt_y - 14) % 2 ^ 32).toNat / w.resize_step_height + w.vscroll2.pos
          < w.list.2.length,
        (ClickMatrix w false pt_y).sel_engine.2 = w.list.2.get
          ⟨((pt_y - 14) % 2 ^ 32).toNat / w.resize_step_height + w.vscroll2.pos, h⟩) ∧
      (w.list.2.length ≤ ((pt_y - 14) % 2 ^ 32).toNat / w.resize_step_height + w.vscroll2.pos →
        (ClickMatrix w false pt_y).sel_engine.2 = INVALID_ENGINE) ∧
      ((ClickMatrix w false pt_y).sel_engine.2 = w.sel_engine.2 → ClickMatrix w false pt_y = w) ∧
      (ClickMatrix w false pt_y).list = w.list ∧
      (ClickMatrix w false pt_y).sel_engine.1 = w.sel_engine.1) :=
  ⟨⟨WndProc_click_left env w pt_y, WndProc_click_right env w pt_y⟩,
   fun hrow => ClickMatrix_left w pt_y hrow hcap hpos,
   fun hrow => ClickMatrix_right w pt_y hrow hcap2 hpos2⟩

/-- The resolution of C11 on the drawn dialog of `env_road3` (source list
`[1, 2]`, source 1): a click on the second row selects engine 2 and sets
`update_right`, a click on the third row, past the end of the list, selects
NONE. -/
theorem C11_click_resolution_witness :
    (reached env_road3 w_road [Input.event env_road3 WE_PAINT]).list.1 = [1, 2] ∧
    (ClickMatrix (reached env_road3 w_road [Input.event env_road3 WE_PAINT]) true 28).sel_engine.1
      = 2 ∧
    (ClickMatrix (reached env_road3 w_road [Input.event env_road3 WE_PAINT]) true 28).update_right
      = true ∧
    (ClickMatrix (reached env_road3 w_road [Input.event env_road3 WE_PAINT]) true 42).sel_engine.1
      = INVALID_ENGINE :=
  ⟨by decide,
   ((C11_click_resolution env_road3 (reached env_road3 w_road [Input.event env_road3 WE_PAINT]) 28
      (by decide) (by decide) (by decide) (by decide)).2.1 (by decide)).1 (by decide),
   ((C11_click_resolution env_road3 (reached env_road3 w_road [Input.event env_road3 WE_PAINT]) 28
      (by decide) (by decide) (by decide) (by decide)).2.1 (by decide)).2.2.2.1 (by decide),
   ((C11_click_resolution env_road3 (reached env_road3 w_road [Input.event env_road3 WE_PAINT]) 42
      (by decide) (by decide) (by decide) (by decide)).2.1 (by decide)).2.1 (by decide)⟩

/-! ### The mode toggle -/

theorem WndProc_toggle (env : Env) (w : Window) (pt_y : Int) :
    ReplaceVehicleWndProc env w (WE_CLICK RVW_WIDGET_TRAIN_ENGINEWAGON_TOGGLE pt_y) =
      { w with wagon_btnstate := !w.wagon_btnstate, update_left := true, init_lists := true } := by
  simp [ReplaceVehicleWndProc]

theorem rail_list_wagon (env : Env) (rt : RailType) (e : EngineID) (draw_left : Bool)
    (h : GenerateReplaceRailList env rt e draw_left false = true) :
    (env.RailVehInfo e).railveh_type = RAILVEH_WAGON := by
  unfold GenerateReplaceRailList at h
  by_contra hc
  simp [hc] at h

/-- The left block of `GenerateLists` when the rebuild drops the selection. -/
theorem left_block_dropped (env : Env) (w : Window) (hi : w.init_lists = true)
    (hu : w.update_left = true)
    (hd : w.sel_engine.1 ∉ (GenerateReplaceVehList env w true).list.1) :
    (GenerateLists_left env w).list.1 = (GenerateReplaceVehList env w true).list.1 ∧
    ((GenerateLists_left env w).list.1 = [] →
      (GenerateLists_left env w).sel_engine.1 = INVALID_ENGINE) ∧
    ((GenerateLists_left env w).list.1 ≠ [] →
      (GenerateLists_left env w).list.1.head? = some (GenerateLists_left env w).sel_engine.1) := by
  have hs := left_sel env w
  rw [if_neg hd] at hs
  rw [GenerateLists_left_eq, if_pos hu]
  simp only
  refine ⟨trivial, fun hl => ?_, fun hl => ?_⟩
  · rw [if_neg (fun hc => hc.2.2 hl)]
    exact hs
  · rw [if_pos ⟨hi, hs, hl⟩]
    exact head_of_ne_nil _ hl

/-- The rebuild after a toggle, for a window `t` that has the category, mode,
flags and selection the toggle leaves behind. -/
theorem toggle_rebuild (env : Env) (w t : Window)
    (hsel : w.sel_engine.1 ≠ INVALID_ENGINE)
    (hloco : (env.RailVehInfo w.sel_engine.1).railveh_type ≠ RAILVEH_WAGON)
    (t1 : t.window_number = VEH_TRAIN) (t2 : t.wagon_btnstate = false)
    (t3 : t.update_left = true) (t4 : t.init_lists = true)
    (t5 : t.sel_engine.1 = w.sel_engine.1) :
    (∀ x ∈ (GenerateLists env t).list.1, (env.RailVehInfo x).railveh_type = RAILVEH_WAGON) ∧
    (GenerateLists env t).list.1 = (GenerateReplaceVehList env t true).list.1 ∧
    ((GenerateLists env t).list.1 ≠ [] →
      (GenerateLists env t).list.1.head? = some (GenerateLists env t).sel_engine.1) ∧
    ((GenerateLists env t).list.1 = [] →
      (GenerateLists env t).sel_engine.1 = INVALID_ENGINE ∧
      (GenerateLists env t).list.2 = [] ∧
      (GenerateLists env t).sel_engine.2 = INVALID_ENGINE) ∧
    (GenerateLists env t).sel_engine.1 ≠ w.sel_engine.1 ∧
    (GenerateLists env t).list.2 =
      (if (GenerateLists env t).sel_engine.1 = INVALID_ENGINE then []
       else (GenerateReplaceVehList env (GenerateLists env t) false).list.2) := by
  have hw : ∀ x ∈ (GenerateReplaceVehList env t true).list.1,
      (env.RailVehInfo x).railveh_type = RAILVEH_WAGON := by
    intro x hx
    have hp := ((left_list_mem env t x).1 hx).2.2
    unfold SidePredicate at hp
    have hr := hp.1 t1
    rw [t2] at hr
    exact rail_list_wagon env _ x true hr
  have hd : t.sel_engine.1 ∉ (GenerateReplaceVehList env t true).list.1 := by
    intro hc
    rw [t5] at hc
    exact hloco (hw _ hc)
  obtain ⟨b1, b2, b3⟩ := left_block_dropped env t t4 t3 hd
  obtain ⟨r1, r2, -⟩ := right_block_frame env t.sel_engine.1 (GenerateLists_left env t)
  have e1 : (GenerateLists env t).list.1 = (GenerateLists_left env t).list.1 := r1
  have e2 : (GenerateLists env t).sel_engine.1 = (GenerateLists_left env t).sel_engine.1 := r2
  have hne : (GenerateLists env t).sel_engine.1 ≠ w.sel_engine.1 := by
    rw [e2]
    intro hc
    by_cases hl : (GenerateLists_left env t).list.1 = []
    · exact hsel (hc ▸ b2 hl)
    · have hm : (GenerateLists_left env t).sel_engine.1 ∈ (GenerateLists_left env t).list.1 :=
        List.mem_of_mem_head? (b3 hl)
      rw [b1, hc] at hm
      exact hloco (hw _ hm)
  have hcas := GenerateLists_cascade env t (Or.inr (by rw [t5]; exact hne))
  refine ⟨?_, ?_, ?_, ?_, hne, hcas⟩
  · rw [e1, b1]; exact hw
  · rw [e1, b1]
  · rw [e1, e2]; exact b3
  · intro hl
    rw [e1] at hl
    have h0 : (GenerateLists env t).sel_engine.1 = INVALID_ENGINE := by rw [e2]; exact b2 hl
    refine ⟨h0, ?_, ?_⟩
    · rw [hcas, if_pos h0]
    · have hc : (GenerateLists_left env t).update_right = true ∨
          t.sel_engine.1 ≠ (GenerateLists_left env t).sel_engine.1 := by
        right
        rw [t5, ← e2]
        exact fun hc => hne hc.symm
      exact (right_block_none env _ _ hc (b2 hl)).2

/-- C12, as stated, fails: the train dialog of `env_toggle` is drawn (source
list `[3, 1]`, locomotive 3 selected), the mode is toggled and `GenerateLists`
runs: the source list becomes the wagons `[4, 5]`, but the source selection
becomes the first wagon 4, not NONE, and the target side is rebuilt against it
(list `[5]`, target 5), not cleared. -/
theorem C12_counterexample :
    (reached env_toggle w_train [Input.event env_toggle WE_PAINT]).sel_engine.1 = 3 ∧
    (env_toggle.RailVehInfo 3).railveh_type = RAILVEH_SINGLEHEAD ∧
    (GenerateLists env_toggle
      (ReplaceVehicleWndProc env_toggle
        (reached env_toggle w_train [Input.event env_toggle WE_PAINT])
        (WE_CLICK RVW_WIDGET_TRAIN_ENGINEWAGON_TOGGLE 0))).list = ([4, 5], [5]) ∧
    (GenerateLists env_toggle
      (ReplaceVehicleWndProc env_toggle
        (reached env_toggle w_train [Input.event env_toggle WE_PAINT])
        (WE_CLICK RVW_WIDGET_TRAIN_ENGINEWAGON_TOGGLE 0))).sel_engine = (4, 5) := by
  decide

/-- C12, amended (Scenario 5, the mode toggle): in a rail dialog in locomotive
mode with a locomotive selected as source, toggling the engine/wagon mode and
then running `GenerateLists` rebuilds the source list so that it holds wagons
only; the source selection becomes the first wagon of the rebuilt list when
that list is not empty and NONE when it is empty; in both cases it is no longer
the locomotive, so the target side is rebuilt: the target list is the one
`GenerateReplaceVehList` builds against the new source selection, and with an
empty source list the target list is empty and the target selection NONE. -/
theorem C12_mode_toggle (env0 env : Env) (w : Window) (pt_y : Int)
    (htrain : w.window_number = VEH_TRAIN) (hmode : w.wagon_btnstate = true)
    (hsel : w.sel_engine.1 ≠ INVALID_ENGINE)
    (hloco : (env.RailVehInfo w.sel_engine.1).railveh_type ≠ RAILVEH_WAGON) :
    (∀ x ∈ (GenerateLists env (ReplaceVehicleWndProc env0 w
        (WE_CLICK RVW_WIDGET_TRAIN_ENGINEWAGON_TOGGLE pt_y))).list.1,
      (env.RailVehInfo x).railveh_type = RAILVEH_WAGON) ∧
    (GenerateLists env (ReplaceVehicleWndProc env0 w
        (WE_CLICK RVW_WIDGET_TRAIN_ENGINEWAGON_TOGGLE pt_y))).list.1
      = (GenerateReplaceVehList env (ReplaceVehicleWndProc env0 w
        (WE_CLICK RVW_WIDGET_TRAIN_ENGINEWAGON_TOGGLE pt_y)) true).list.1 ∧
    ((GenerateLists env (ReplaceVehicleWndProc env0 w
        (WE_CLICK RVW_WIDGET_TRAIN_ENGINEWAGON_TOGGLE pt_y))).list.1 ≠ [] →
      (GenerateLists env (ReplaceVehicleWndProc env0 w
        (WE_CLICK RVW_WIDGET_TRAIN_ENGINEWAGON_TOGGLE pt_y))).list.1.head?
        = some (GenerateLists env (ReplaceVehicleWndProc env0 w
          (WE_CLICK RVW_WIDGET_TRAIN_ENGINEWAGON_TOGGLE pt_y))).sel_engine.1) ∧
    ((GenerateLists env (ReplaceVehicleWndProc env0 w
        (WE_CLICK RVW_WIDGET_TRAIN_ENGINEWAGON_TOGGLE pt_y))).list.1 = [] →
      (GenerateLists env (ReplaceVehicleWndProc env0 w
        (WE_CLICK RVW_WIDGET_TRAIN_ENGINEWAGON_TOGGLE pt_y))).sel_engine.1 = INVALID_ENGINE ∧
      (GenerateLists env (ReplaceVehicleWndProc env0 w
        (WE_CLICK RVW_WIDGET_TRAIN_ENGINEWAGON_TOGGLE pt_y))).list.2 = [] ∧
      (GenerateLists env (ReplaceVehicleWndProc env0 w
        (WE_CLICK RVW_WIDGET_TRAIN_ENGINEWAGON_TOGGLE pt_y))).sel_engine.2 = INVALID_ENGINE) ∧
    (GenerateLists env (ReplaceVehicleWndProc env0 w
        (WE_CLICK RVW_WIDGET_TRAIN_ENGINEWAGON_TOGGLE pt_y))).sel_engine.1 ≠ w.sel_engine.1 ∧
    (GenerateLists env (ReplaceVehicleWndProc env0 w
        (WE_CLICK RVW_WIDGET_TRAIN_ENGINEWAGON_TOGGLE pt_y))).list.2 =
      (if (GenerateLists env (ReplaceVehicleWndProc env0 w
          (WE_CLICK RVW_WIDGET_TRAIN_ENGINEWAGON_TOGGLE pt_y))).sel_engine.1 = INVALID_ENGINE
       then []
       else (GenerateReplaceVehList env (GenerateLists env (ReplaceVehicleWndProc env0 w
          (WE_CLICK RVW_WIDGET_TRAIN_ENGINEWAGON_TOGGLE pt_y))) false).list.2) := by
  have t2 : (ReplaceVehicleWndProc env0 w
      (WE_CLICK RVW_WIDGET_TRAIN_ENGINEWAGON_TOGGLE pt_y)).wagon_btnstate = false := by
    rw [WndProc_toggle]; simp [hmode]
  exact toggle_rebuild env w _ hsel hloco (by rw [WndProc_toggle]; exact htrain) t2
    (by rw [WndProc_toggle]) (by rw [WndProc_toggle]) (by rw [WndProc_toggle])

/-- The amended C12 at work: on the drawn train dialog of `env_toggle` with
locomotive 3 selected, the toggle and the rebuild leave a source list of wagons
and a source selection other than the locomotive; on the drawn train dialog of
`env_mail`, where the player owns no wagon, they leave the source list empty, the
source NONE and the target side cleared. -/
theorem C12_mode_toggle_witness :
    (reached env_toggle w_train [Input.event env_toggle WE_PAINT]).sel_engine.1 = 3 ∧
    (∀ x ∈ (GenerateLists env_toggle (ReplaceVehicleWndProc env_toggle
        (reached env_toggle w_train [Input.event env_toggle WE_PAINT])
        (WE_CLICK RVW_WIDGET_TRAIN_ENGINEWAGON_TOGGLE 0))).list.1,
      (env_toggle.RailVehInfo x).railveh_type = RAILVEH_WAGON) ∧
    (GenerateLists env_toggle (ReplaceVehicleWndProc env_toggle
        (reached env_toggle w_train [Input.event env_toggle WE_PAINT])
        (WE_CLICK RVW_WIDGET_TRAIN_ENGINEWAGON_TOGGLE 0))).sel_engine.1
      ≠ (reached env_toggle w_train [Input.event env_toggle WE_PAINT]).sel_engine.1 ∧
    ((GenerateLists env_mail (ReplaceVehicleWndProc env_mail
        (reached env_mail w_train [Input.event env_mail WE_PAINT])
        (WE_CLICK RVW_WIDGET_TRAIN_ENGINEWAGON_TOGGLE 0))).sel_engine.1 = INVALID_ENGINE ∧
      (GenerateLists env_mail (ReplaceVehicleWndProc env_mail
        (reached env_mail w_train [Input.event env_mail WE_PAINT])
        (WE_CLICK RVW_WIDGET_TRAIN_ENGINEWAGON_TOGGLE 0))).list.2 = [] ∧
      (GenerateLists env_mail (ReplaceVehicleWndProc env_mail
        (reached env_mail w_train [Input.event env_mail WE_PAINT])
        (WE_CLICK RVW_WIDGET_TRAIN_ENGINEWAGON_TOGGLE 0))).sel_engine.2 = INVALID_ENGINE) :=
  ⟨by decide,
   (C12_mode_toggle env_toggle env_toggle
      (reached env_toggle w_train [Input.event env_toggle WE_PAINT]) 0
      (by decide) (by decide) (by decide) (by decide)).1,
   (C12_mode_toggle env_toggle env_toggle
      (reached env_toggle w_train [Input.event env_toggle WE_PAINT]) 0
      (by decide) (by decide) (by decide) (by decide)).2.2.2.2.1,
   (C12_mode_toggle env_mail env_mail
      (reached env_mail w_train [Input.event env_mail WE_PAINT]) 0
      (by decide) (by decide) (by decide) (by decide)).2.2.2.1 (by decide)⟩

/-! ### No self-replacement -/

theorem GenerateLists_InvNoSelf (env : Env) (w : Window) (h : InvNoSelf w) :
    InvNoSelf (GenerateLists env w) := by
  unfold InvNoSelf GenerateLists at *
  simp only
  intro _
  obtain ⟨l1, -, l3, -⟩ := left_block_frame env w
  obtain ⟨-, r2, -⟩ := right_block_frame env w.sel_engine.1 (GenerateLists_left env w)
  rw [r2]
  by_cases hu : (GenerateLists_left env w).update_right = true ∨
      w.sel_engine.1 ≠ (GenerateLists_left env w).sel_engine.1
  · rw [right_block_list env _ _ hu]
    split_ifs with h0
    · simp
    · intro hc
      have hp := ((right_list_mem env _ _).1 hc).2.2
      unfold SidePredicate at hp
      exact (hp.2.2 rfl).2.2.2 rfl
  · rw [right_block_skip env _ _ hu, l1]
    simp only [not_or, not_not] at hu
    rw [l3] at hu
    rw [← hu.2]
    exact h (by simpa using hu.1)

theorem ClickMatrix_InvNoSelf (w : Window) (left : Bool) (pt_y : Int) (h : InvNoSelf w) :
    InvNoSelf (ClickMatrix w left pt_y) := by
  unfold ClickMatrix
  cases left
  · simp only [Bool.false_eq_true, if_false]
    split_ifs <;> exact h
  · simp only [if_true]
    split_ifs
    all_goals first
      | exact h
      | (intro hu; simp at hu)

theorem WndProc_InvNoSelf (env : Env) (w : Window) (e : WindowEvent) (h : InvNoSelf w) :
    InvNoSelf (ReplaceVehicleWndProc env w e) := by
  cases e with
  | WE_CREATE => simp [ReplaceVehicleWndProc, InvNoSelf]
  | WE_PAINT =>
    simp only [ReplaceVehicleWndProc]
    split_ifs
    · exact GenerateLists_InvNoSelf env w h
    · exact h
  | WE_CLICK widget pt_y =>
    simp only [ReplaceVehicleWndProc]
    split_ifs
    all_goals first
      | exact h
      | exact ClickMatrix_InvNoSelf w _ pt_y h
  | WE_DROPDOWN_SELECT index =>
    simp only [ReplaceVehicleWndProc]
    split_ifs
    · exact h
    · intro hu
      simp at hu
  | WE_RESIZE dx dy => exact h
  | WE_INVALIDATE_DATA data =>
    simp only [ReplaceVehicleWndProc]
    split_ifs
    · exact h
    · intro hu
      simp at hu
  | WE_DESTROY => exact h

theorem step_InvNoSelf (w : Window) (i : Input) (h : InvNoSelf w) : InvNoSelf (step w i) := by
  cases i with
  | event env e => exact WndProc_InvNoSelf env w e h
  | scroll v v2 => exact h

theorem reached_InvNoSelf (env0 : Env) (w0 : Window) (ins : List Input) :
    InvNoSelf (reached env0 w0 ins) :=
  run_invariant InvNoSelf step_InvNoSelf ins _ (by simp [ReplaceVehicleWndProc, InvNoSelf])

theorem paint_update_right (env : Env) (w : Window) :
    (ReplaceVehicleWndProc env w WE_PAINT).update_right = false := by
  simp only [ReplaceVehicleWndProc]
  split_ifs with h
  · rfl
  · simp only [not_or] at h
    simpa using h.2

theorem paint_start_disabled (env : Env) (w : Window)
    (h : (ReplaceVehicleWndProc env w WE_PAINT).sel_engine.1 = INVALID_ENGINE) :
    (ReplaceVehicleWndProc env w WE_PAINT).disabled_START_REPLACE = true := by
  revert h
  simp only [ReplaceVehicleWndProc]
  generalize (if w.update_left = true ∨ w.update_right = true then GenerateLists env w else w) = v
  intro h
  simp [h]

theorem WndProc_start (env : Env) (w : Window) (pt_y : Int) :
    (ReplaceVehicleWndProc env w (WE_CLICK RVW_WIDGET_START_REPLACE pt_y)).commands =
      w.commands ++ [((3 + (w.sel_group <<< 16)) % 2 ^ 32,
        (w.sel_engine.1 + (w.sel_engine.2 <<< 16)) % 2 ^ 32)] := by
  simp [ReplaceVehicleWndProc, DoCommandP, RVW_WIDGET_START_REPLACE,
    RVW_WIDGET_TRAIN_ENGINEWAGON_TOGGLE, RVW_WIDGET_TRAIN_RAILTYPE_DROPDOWN,
    RVW_WIDGET_TRAIN_WAGONREMOVE_TOGGLE]

/-- The two halves of the second command argument are the two engines. -/
theorem from_to_decode (a b : Nat) (ha : a < 2 ^ 16) (hb : b < 2 ^ 16) :
    ((a + (b <<< 16)) % 2 ^ 32) % 2 ^ 16 = a ∧ ((a + (b <<< 16)) % 2 ^ 32) / 2 ^ 16 = b := by
  rw [Nat.shiftLeft_eq]
  constructor <;> omega

theorem paint_start_enabled (env : Env) (w : Window)
    (h : (ReplaceVehicleWndProc env w WE_PAINT).disabled_START_REPLACE = false) :
    (ReplaceVehicleWndProc env w WE_PAINT).sel_engine.1 ≠ INVALID_ENGINE ∧
    (ReplaceVehicleWndProc env w WE_PAINT).sel_engine.2 ≠ INVALID_ENGINE := by
  revert h
  simp only [ReplaceVehicleWndProc]
  generalize (if w.update_left = true ∨ w.update_right = true then GenerateLists env w else w) = v
  simp only [decide_eq_false_iff_not, not_or]
  intro h
  exact ⟨h.1, h.2.1⟩

/-- C13 (no self-replacement after a draw): in every state directly after a
draw, starting from the creation of the dialog and under any sequence of
inputs with the game data free to change between them, the target list does
not hold the source selection; hence two selections that are both not NONE
are different engines, and the two selections are equal only when both are
NONE, a state in which the draw has disabled the Start Replacing button.  The
Start Replacing command holds the source selection in the low and the target
selection in the high 16 bits of its second argument; built from a freshly
drawn state in which the button is enabled, which is when a click on it is let
through, it has selections that are both not NONE and from ≠ to. -/
theorem C13_no_self_replacement (env0 : Env) (w0 : Window) (ins : List Input) (env : Env) :
    (ReplaceVehicleWndProc env (reached env0 w0 ins) WE_PAINT).sel_engine.1
      ∉ (ReplaceVehicleWndProc env (reached env0 w0 ins) WE_PAINT).list.2 ∧
    ((ReplaceVehicleWndProc env (reached env0 w0 ins) WE_PAINT).sel_engine.1 ≠ INVALID_ENGINE →
      (ReplaceVehicleWndProc env (reached env0 w0 ins) WE_PAINT).sel_engine.2 ≠ INVALID_ENGINE →
      (ReplaceVehicleWndProc env (reached env0 w0 ins) WE_PAINT).sel_engine.1
        ≠ (ReplaceVehicleWndProc env (reached env0 w0 ins) WE_PAINT).sel_engine.2) ∧
    ((ReplaceVehicleWndProc env (reached env0 w0 ins) WE_PAINT).disabled_START_REPLACE = false →
      (ReplaceVehicleWndProc env (reached env0 w0 ins) WE_PAINT).sel_engine.1 ≠ INVALID_ENGINE ∧
      (ReplaceVehicleWndProc env (reached env0 w0 ins) WE_PAINT).sel_engine.2 ≠ INVALID_ENGINE ∧
      (ReplaceVehicleWndProc env (reached env0 w0 ins) WE_PAINT).sel_engine.1
        ≠ (ReplaceVehicleWndProc env (reached env0 w0 ins) WE_PAINT).sel_engine.2) ∧
    (∀ (env2 : Env) (pt_y : Int),
      (ReplaceVehicleWndProc env2 (ReplaceVehicleWndProc env (reached env0 w0 ins) WE_PAINT)
          (WE_CLICK RVW_WIDGET_START_REPLACE pt_y)).commands =
        (ReplaceVehicleWndProc env (reached env0 w0 ins) WE_PAINT).commands ++
          [((3 + ((ReplaceVehicleWndProc env (reached env0 w0 ins) WE_PAINT).sel_group <<< 16))
              % 2 ^ 32,
            ((ReplaceVehicleWndProc env (reached env0 w0 ins) WE_PAINT).sel_engine.1 +
              ((ReplaceVehicleWndProc env (reached env0 w0 ins) WE_PAINT).sel_engine.2 <<< 16))
              % 2 ^ 32)]) ∧
    ((ReplaceVehicleWndProc env (reached env0 w0 ins) WE_PAINT).disabled_START_REPLACE = false →
      (ReplaceVehicleWndProc env (reached env0 w0 ins) WE_PAINT).sel_engine.1 < 2 ^ 16 →
      (ReplaceVehicleWndProc env (reached env0 w0 ins) WE_PAINT).sel_engine.2 < 2 ^ 16 →
      (((ReplaceVehicleWndProc env (reached env0 w0 ins) WE_PAINT).sel_engine.1 +
          ((ReplaceVehicleWndProc env (reached env0 w0 ins) WE_PAINT).sel_engine.2 <<< 16))
          % 2 ^ 32) % 2 ^ 16 ≠
        (((ReplaceVehicleWndProc env (reached env0 w0 ins) WE_PAINT).sel_engine.1 +
          ((ReplaceVehicleWndProc env (reached env0 w0 ins) WE_PAINT).sel_engine.2 <<< 16))
          % 2 ^ 32) / 2 ^ 16) ∧
    ((ReplaceVehicleWndProc env (reached env0 w0 ins) WE_PAINT).sel_engine.1
        = (ReplaceVehicleWndProc env (reached env0 w0 ins) WE_PAINT).sel_engine.2 →
      (ReplaceVehicleWndProc env (reached env0 w0 ins) WE_PAINT).sel_engine.1 = INVALID_ENGINE ∧
      (ReplaceVehicleWndProc env (reached env0 w0 ins) WE_PAINT).sel_engine.2 = INVALID_ENGINE ∧
      (ReplaceVehicleWndProc env (reached env0 w0 ins) WE_PAINT).disabled_START_REPLACE
        = true) := by
  have hJ : InvNoSelf (ReplaceVehicleWndProc env (reached env0 w0 ins) WE_PAINT) :=
    WndProc_InvNoSelf env _ WE_PAINT (reached_InvNoSelf env0 w0 ins)
  have hA : InvA (ReplaceVehicleWndProc env (reached env0 w0 ins) WE_PAINT) :=
    WndProc_InvA env _ WE_PAINT (reached_InvA env0 w0 ins)
  have h1 := hJ (paint_update_right env _)
  have hD := paint_start_disabled env (reached env0 w0 ins)
  have hE := paint_start_enabled env (reached env0 w0 ins)
  generalize ReplaceVehicleWndProc env (reached env0 w0 ins) WE_PAINT = s at *
  have h2 : s.sel_engine.1 = s.sel_engine.2 →
      s.sel_engine.1 = INVALID_ENGINE ∧ s.sel_engine.2 = INVALID_ENGINE ∧
      s.disabled_START_REPLACE = true := by
    intro heq
    rcases hA.2 with h0 | hm
    · exact ⟨heq.trans h0, h0, hD (heq.trans h0)⟩
    · rw [← heq] at hm
      exact absurd hm h1
  have h3 : s.disabled_START_REPLACE = false → s.sel_engine.1 ≠ s.sel_engine.2 := by
    intro he heq
    have h4 := (h2 heq).2.2
    rw [he] at h4
    exact Bool.noConfusion h4
  refine ⟨h1, fun _ hb heq => hb (h2 heq).2.1, fun he => ⟨(hE he).1, (hE he).2, h3 he⟩,
    fun env2 pt_y => WndProc_start env2 s pt_y, ?_, h2⟩
  intro he ha hb
  obtain ⟨d1, d2⟩ := from_to_decode s.sel_engine.1 s.sel_engine.2 ha hb
  rw [d1, d2]
  exact h3 he

/-- The property of C13 on the drawn dialog of `env_road3` (source 1, target 2,
the button enabled): the Start Replacing command built from it has from = 1
and to = 2. -/
theorem C13_no_self_replacement_witness :
    (ReplaceVehicleWndProc env_road3
      (reached env_road3 w_road []) WE_PAINT).disabled_START_REPLACE = false ∧
    (ReplaceVehicleWndProc env_road3
      (ReplaceVehicleWndProc env_road3 (reached env_road3 w_road []) WE_PAINT)
      (WE_CLICK RVW_WIDGET_START_REPLACE 0)).commands = [(3, 1 + 2 * 2 ^ 16)] ∧
    (((ReplaceVehicleWndProc env_road3 (reached env_road3 w_road []) WE_PAINT).sel_engine.1 +
        ((ReplaceVehicleWndProc env_road3 (reached env_road3 w_road []) WE_PAINT).sel_engine.2
          <<< 16)) % 2 ^ 32) % 2 ^ 16 ≠
      (((ReplaceVehicleWndProc env_road3 (reached env_road3 w_road []) WE_PAINT).sel_engine.1 +
        ((ReplaceVehicleWndProc env_road3 (reached env_road3 w_road []) WE_PAINT).sel_engine.2
          <<< 16)) % 2 ^ 32) / 2 ^ 16 :=
  ⟨by decide, by decide,
   (C13_no_self_replacement env_road3 w_road [] env_road3).2.2.2.2.1
     (by decide) (by decide) (by decide)⟩

/-- The wrap of the comparison: with list positions 0 and 0x90000000 the
difference stored in the `int` of `TrainEngineNumberSorter` is positive, and
the source list of the train dialog puts engine 2 before engine 1, against the
order of the positions. -/
theorem X4_sorter_wraps :
    TrainEngineNumberSorter env_wrap 1 2 = 0x70000000 ∧
    (GenerateReplaceVehList env_wrap
      (ReplaceVehicleWndProc env_wrap w_train WE_CREATE) true).list.1 = [2, 1] := by
  decide

end Autoreplace
